import Mathlib

/-!
# optixIntro_03: `Application.cpp`

A shallow embedding of the host-side glue code of the sample and the properties
proved about it.

* Machine integers are `Nat`/`Int` with explicit wrap-around, single precision
  floats are bit patterns.
* The ray-tracing runtime, the graphics API and the camera utility are external.
  Their calls are recorded in a trace; the part of the runtime's object model the
  glue code reads back (child arrays, handles) is kept as explicit state; whether
  a call into the runtime fails is decided by an arbitrary function.
* Output to `std::cout` is not modelled.
-/

namespace OptixIntro03

/-! ## Machine numbers -/

/-- Conversion of an `unsigned int` to `int` (two's complement, 32 bit). -/
def toInt32 (x : Nat) : Int :=
  if x % 2 ^ 32 < 2 ^ 31 then (x % 2 ^ 32 : Nat) else (x % 2 ^ 32 : Nat) - 2 ^ 32

/-- An integer result brought back into the range of `int` (32 bit wrap-around). -/
def wrapInt32 (x : Int) : Int :=
  toInt32 (x % 2 ^ 32).toNat

/-- Conversion of an `int` to `size_t` (64 bit). -/
def toSizeT (x : Int) : Nat :=
  (x % 2 ^ 64).toNat

/-- An IEEE-754 binary32 value, held as its bit pattern. -/
structure F32 where
  bits : Nat
deriving DecidableEq, Repr

/-- The C++ comparison `f != 0.0f`: false exactly for the two zeros. -/
def F32.neZero (f : F32) : Bool :=
  decide (f.bits % 2 ^ 31 ≠ 0)

/-- The C++ conversion `int(f)`: truncation toward zero. For a NaN, an infinity or a
value outside the range of `int` the language leaves the result undefined; the
model returns the value x86 produces there. -/
def F32.toInt (f : F32) : Int :=
  let sign := f.bits / 2 ^ 31 % 2
  let expo := f.bits / 2 ^ 23 % 256
  let frac := f.bits % 2 ^ 23
  if expo = 255 then -(2 ^ 31)
  else if expo = 0 then 0
  else
    let mant := 2 ^ 23 + frac
    let mag : Nat := if 150 ≤ expo then mant * 2 ^ (expo - 150) else mant / 2 ^ (150 - expo)
    let v : Int := if sign = 1 then -(mag : Int) else (mag : Int)
    if -(2 ^ 31) ≤ v ∧ v < 2 ^ 31 then v else -(2 ^ 31)

/-- The value of a finite binary32 as a rational number (IEEE 754); it only serves to
say what `F32.toInt` computes. -/
def F32.toRat (f : F32) : Rat :=
  let sign : Nat := f.bits / 2 ^ 31 % 2
  let expo : Nat := f.bits / 2 ^ 23 % 256
  let frac : Nat := f.bits % 2 ^ 23
  let mag : Rat :=
    if expo = 0 then (frac : Rat) / 2 ^ 149
    else if 150 ≤ expo then ((2 ^ 23 + frac : Nat) : Rat) * 2 ^ (expo - 150)
    else ((2 ^ 23 + frac : Nat) : Rat) / 2 ^ (150 - expo)
  if sign = 1 then -mag else mag

/-- Truncation toward zero. -/
def truncRat (q : Rat) : Int := if 0 ≤ q then ⌊q⌋ else ⌈q⌉

/-- The value is finite and its integer part fits an `int`: the cases in which the
conversion `int(f)` is defined. -/
def F32.fitsInt (f : F32) : Prop :=
  f.bits / 2 ^ 23 % 256 ≠ 255 ∧ -(2 ^ 31 : Rat) - 1 < f.toRat ∧ f.toRat < 2 ^ 31

/-! ## Device selection (`initOptiX`, the do-while loop) -/

/-- The loop
`do { device = devicesEncoding % 10; devices.push_back(device); devicesEncoding /= 10; ++i; }
 while (i < numberOfDevices && devicesEncoding);`
entered with the given values of the locals. `devicesEncoding` is an `int` (division
truncates toward zero), `i` an `unsigned int`. -/
def devicesLoop (devicesEncoding : Int) (i numberOfDevices : Nat) (devices : List Int) :
    List Int :=
  let device := devicesEncoding.tmod 10
  let devices := devices ++ [device]
  let devicesEncoding := devicesEncoding.tdiv 10
  let i := (i + 1) % 2 ^ 32
  if i < numberOfDevices ∧ devicesEncoding ≠ 0 then
    devicesLoop devicesEncoding i numberOfDevices devices
  else
    devices
termination_by devicesEncoding.natAbs
decreasing_by
  rename_i h
  have key : ∀ e : Int, e.tdiv 10 ≠ 0 → (e.tdiv 10).natAbs < e.natAbs := by
    intro e he
    have h1 : (e.tdiv 10).natAbs = e.natAbs / 10 := Int.natAbs_tdiv e 10
    have h2 : (e.tdiv 10).natAbs ≠ 0 := fun h0 => he (Int.natAbs_eq_zero.mp h0)
    omega
  exact key _ h.2

/-- The list handed to `m_context->setDevices`:
`int devicesEncoding = m_devicesEncoding; unsigned int i = 0;` followed by the loop. -/
def selectDevices (m_devicesEncoding numberOfDevices : Nat) : List Int :=
  devicesLoop (toInt32 m_devicesEncoding) 0 numberOfDevices []

/-- Number of decimal digits of `e`, with one digit for zero. -/
def numDigits (e : Nat) : Nat :=
  if e = 0 then 1 else (Nat.digits 10 e).length

/-- The decimal digit of `e` at position `k`, counted from the least significant. -/
def digitAt (e k : Nat) : Int := ((e / 10 ^ k % 10 : Nat) : Int)

/-! ## Mouse interaction (`guiEventHandler`) -/

/-- The values of `m_guiState` the handler distinguishes. -/
inductive GuiState
  | GUI_STATE_NONE
  | GUI_STATE_ORBIT
  | GUI_STATE_DOLLY
  | GUI_STATE_PAN
deriving DecidableEq, Repr

/-- Calls on `m_pinholeCamera`. -/
inductive CameraCall
  | setViewport (w h : Int)
  | setBaseCoordinates (x y : Int)
  | orbit (x y : Int)
  | dolly (x y : Int)
  | pan (x y : Int)
  | zoom (delta : F32)
  | setSpeedRatio (ratio : F32)
  | getFrustum
deriving DecidableEq, Repr

structure ImVec2 where
  x : F32
  y : F32
deriving DecidableEq, Repr

/-- What the GUI toolkit answers during one call of `guiEventHandler`. -/
structure GuiInput where
  /-- The result of `ImGui::IsKeyPressed(' ', false)`. -/
  IsKeyPressedSpace : Bool
  /-- The result of `ImGui::GetMousePos()`. -/
  GetMousePos : ImVec2
  /-- The field `io.WantCaptureMouse`. -/
  WantCaptureMouse : Bool
  /-- The field `io.MouseWheel`. -/
  MouseWheel : F32
  /-- The result of `ImGui::IsMouseDown(button)`. -/
  IsMouseDown : Nat → Bool
  /-- The result of `ImGui::IsMouseReleased(button)`. -/
  IsMouseReleased : Nat → Bool

/-- Handles of runtime objects; a null handle is `none`. -/
abbrev Handle := Nat

/-- The data members of `Application` that `Application.cpp` reads or writes. The
window, the timer and the camera object are external; the names of the GLSL objects
are not tracked. -/
structure Application where
  m_width : Int
  m_height : Int
  m_devicesEncoding : Nat
  m_stackSize : Nat
  m_interop : Bool
  m_isValid : Bool
  m_builder : String
  m_pboOutputBuffer : Nat
  m_hdrTexture : Nat
  m_guiState : GuiState
  m_isWindowVisible : Bool
  m_mouseSpeedRatio : F32
  m_context : Option Handle
  m_bufferOutput : Option Handle
  m_mapOfPrograms : List (String × Handle)
  m_opaqueMaterial : Option Handle
  m_rootAcceleration : Option Handle
  m_rootGroup : Option Handle
deriving DecidableEq, Repr

/-- One call of `Application::guiEventHandler`: the new application state and the
camera calls made, in order. -/
def guiEventHandler (app : Application) (io : GuiInput) : Application × List CameraCall :=
  let app :=
    if io.IsKeyPressedSpace then { app with m_isWindowVisible := !app.m_isWindowVisible }
    else app
  let mousePosition := io.GetMousePos
  let x := F32.toInt mousePosition.x
  let y := F32.toInt mousePosition.y
  match app.m_guiState with
  | .GUI_STATE_NONE =>
    if !io.WantCaptureMouse then
      if io.IsMouseDown 0 then
        ({ app with m_guiState := .GUI_STATE_ORBIT }, [.setBaseCoordinates x y])
      else if io.IsMouseDown 1 then
        ({ app with m_guiState := .GUI_STATE_DOLLY }, [.setBaseCoordinates x y])
      else if io.IsMouseDown 2 then
        ({ app with m_guiState := .GUI_STATE_PAN }, [.setBaseCoordinates x y])
      else if io.MouseWheel.neZero then
        (app, [.zoom io.MouseWheel])
      else (app, [])
    else (app, [])
  | .GUI_STATE_ORBIT =>
    if io.IsMouseReleased 0 then ({ app with m_guiState := .GUI_STATE_NONE }, [])
    else (app, [.orbit x y])
  | .GUI_STATE_DOLLY =>
    if io.IsMouseReleased 1 then ({ app with m_guiState := .GUI_STATE_NONE }, [])
    else (app, [.dolly x y])
  | .GUI_STATE_PAN =>
    if io.IsMouseReleased 2 then ({ app with m_guiState := .GUI_STATE_NONE }, [])
    else (app, [.pan x y])

/-- The application state after a sequence of `guiEventHandler` calls. -/
def guiRun (app : Application) : List GuiInput → Application
  | [] => app
  | io :: rest => guiRun (guiEventHandler app io).1 rest

/-- The mouse button that holds a drag state: left for orbit, right for dolly,
middle for pan. -/
def dragButton : GuiState → Option Nat
  | .GUI_STATE_NONE => none
  | .GUI_STATE_ORBIT => some 0
  | .GUI_STATE_DOLLY => some 1
  | .GUI_STATE_PAN => some 2

/-- The camera operation a drag state forwards the mouse coordinates to. -/
def dragCall : GuiState → Int → Int → Option CameraCall
  | .GUI_STATE_NONE, _, _ => none
  | .GUI_STATE_ORBIT, x, y => some (.orbit x y)
  | .GUI_STATE_DOLLY, x, y => some (.dolly x y)
  | .GUI_STATE_PAN, x, y => some (.pan x y)

/-! ## The external world: runtime, graphics API, camera -/

/-- The entry points of the ray-tracing runtime (C API and C++ wrapper) and of the
`sutil` helper library that `Application.cpp` calls. -/
inductive Api
  | rtGetVersion | rtDeviceGetDeviceCount | rtDeviceGetAttribute
  | Context_create | destroy | setDevices | getEnabledDevices | getDeviceName
  | createProgramFromPTXFile
  | setEntryPointCount | setRayTypeCount | setStackSize | setPrintEnabled | setExceptionEnabled
  | createBufferFromGLBO | createBuffer | setFormat | setElementSize | setSize
  | map | unmap | getGLBOId | getElementSize | unregisterGLBuffer | registerGLBuffer
  | setVariable | setRayGenerationProgram | setExceptionProgram | setMissProgram
  | validate | launch
  | createGeometry | setBoundingBoxProgram | setIntersectionProgram | setPrimitiveCount
  | createMaterial | setClosestHitProgram
  | createAcceleration | setProperty
  | createGroup | createGeometryGroup | createGeometryInstance | createTransform
  | setAcceleration | getChildCount | setChildCount | setChild | setMatrix
  | setGeometry | setMaterialCount | setMaterial
  | writeBufferToFile
deriving DecidableEq, Repr

/-- Arguments of a recorded call. -/
inductive Arg
  | int (i : Int)
  | nat (n : Nat)
  | bool (b : Bool)
  | str (s : String)
  | obj (h : Option Handle)
  | ints (l : List Int)
  | floats (l : List F32)
deriving DecidableEq, Repr

/-- A call into the runtime: entry point, the object it is invoked on, arguments. -/
structure RtCall where
  api : Api
  target : Option Handle
  args : List Arg
deriving DecidableEq, Repr

/-- The graphics API entry points used by `reshape`, `render` and `initOpenGL`. -/
inductive GlApi
  | glClearColor | glViewport | glMatrixMode | glLoadIdentity
  | glGenBuffers | glBindBuffer | glBufferData
  | glGenTextures | glActiveTexture | glBindTexture | glTexParameteri | glTexEnvi
  | glTexImage2D | initGLSL
deriving DecidableEq, Repr

structure GlCall where
  api : GlApi
  args : List Arg
deriving DecidableEq, Repr

/-- What is written to `std::cerr`. -/
inductive CerrLine
  /-- The line `e.getErrorString()` of a catch block; `site` numbers the runtime call
  that raised. -/
  | errorString (site : Nat)
  /-- The line of `RT_CHECK_ERROR_NO_CONTEXT` when that macro reports without raising. -/
  | checkError (site : Nat)
  /-- The line `Wrote <filename>` of `screenshot`. -/
  | wrote (filename : String)
deriving DecidableEq, Repr

/-- One observable step of the program. -/
inductive Event
  /-- A graphics API call. -/
  | gl (c : GlCall)
  /-- A call into the runtime that returned. -/
  | rt (c : RtCall)
  /-- A call into the runtime that was issued and failed. -/
  | rtFailed (c : RtCall)
  /-- A call on the camera. -/
  | camera (c : CameraCall)
  /-- A line on standard error. -/
  | cerr (l : CerrLine)
deriving DecidableEq, Repr

/-- The kinds of runtime objects. -/
inductive RtKind
  | context | program | buffer | material | acceleration
  | group | geometryGroup | geometryInstance | transform | geometry
deriving DecidableEq, Repr

/-- The state of one runtime object, as far as the calls of `Application.cpp` set it.
A field that does not apply to the kind of the object keeps its initial value. -/
structure RtObject where
  kind : RtKind
  /-- Acceleration of a group or geometry group. -/
  acceleration : Option Handle := none
  /-- Child array of a group or geometry group; the single child of a transform. -/
  children : List (Option Handle) := []
  /-- Matrix of a transform (row major), as passed to `setMatrix`. -/
  matrix : List F32 := []
  /-- Geometry of a geometry instance. -/
  geometry : Option Handle := none
  /-- Material array of a geometry instance. -/
  materials : List (Option Handle) := []
  /-- Builder name of an acceleration. -/
  builder : String := ""
  /-- Properties of an acceleration, latest first. -/
  properties : List (String × String) := []
  /-- Variables of a context or geometry that hold an object, latest first. -/
  vars : List (String × Option Handle) := []
  /-- Programs attached to a context, geometry or material, by slot name. -/
  programs : List (String × Option Handle) := []
  /-- Element size of a buffer. -/
  elementSize : Nat := 0
  /-- Dimensions of a buffer. -/
  size : List Nat := []
  /-- Primitive count of a geometry. -/
  primitiveCount : Nat := 0
  /-- Graphics buffer object behind an interop buffer, 0 for none. -/
  glbo : Nat := 0
  /-- Whether an interop buffer is currently registered. -/
  registered : Bool := false
deriving DecidableEq, Repr

/-- The object store of the runtime. -/
structure Runtime where
  /-- The next handle to be given out. -/
  next : Handle
  objs : Handle → Option RtObject

/-- Index and vertex data produced by a mesh generator (`createPlane`, `createSphere`):
only the element counts matter to the calls made. -/
structure Mesh where
  attributes : Nat
  indices : Nat
deriving DecidableEq, Repr

/-- Everything `Application.cpp` takes from files that are not part of it. -/
structure Config where
  /-- The macro `USE_DEBUG_EXCEPTIONS` of `shaders/app_config.h`. -/
  USE_DEBUG_EXCEPTIONS : Bool
  /-- Whether `RT_CHECK_ERROR_NO_CONTEXT` raises `optix::Exception` on a failed call
  (otherwise it reports on standard error and goes on). -/
  checkErrorRaises : Bool
  /-- The value of `sizeof(VertexAttributes)`. -/
  sizeofVertexAttributes : Nat
  /-- The mesh `createPlane(1, 1, 1)` hands to `createGeometry`. -/
  plane : Mesh
  /-- The mesh `createSphere(180, 90, 1.0f, M_PIf)` hands to `createGeometry`. -/
  sphere : Mesh
  /-- The value `rtGetVersion` stores. -/
  optixVersion : Nat
  /-- The value `rtDeviceGetDeviceCount` stores. -/
  numberOfDevices : Nat
  /-- The list `m_context->getEnabledDevices()` returns. -/
  enabledDevices : List Int
  /-- The name `glGenBuffers` returns in `initOpenGL`. -/
  pboName : Nat
  /-- The name `glGenTextures` returns in `initOpenGL`. -/
  textureName : Nat
  /-- Whether `MY_ASSERT` of `inc/MyAssert.h` checks its condition. -/
  assertsEnabled : Bool

/-- The whole state: the application object and the world around it. -/
structure Sys where
  app : Application
  cfg : Config
  /-- Whether the call into the runtime with the given number (counted from 0 over the
  whole run) fails. -/
  fails : Nat → Bool
  /-- Number of calls into the runtime issued so far. -/
  rtCalls : Nat
  /-- Everything observable that happened so far, oldest first. -/
  trace : List Event
  runtime : Runtime

/-- Abnormal completion of a piece of code. -/
inductive Exn
  /-- An `optix::Exception`, raised by the runtime call with the given number. -/
  | optix (site : Nat)
  /-- Behaviour the language leaves undefined or an assertion failure: a null handle
  dereferenced, `it->second` at `end()`. No handler catches it. -/
  | undefined
deriving DecidableEq, Repr

/-- Result of running a piece of code. -/
inductive Res (α : Type)
  | ok (a : α)
  | raised (e : Exn)
deriving DecidableEq, Repr

/-- A piece of code: from the state before to its result and the state after. -/
def Rt (α : Type) : Type := Sys → Res α × Sys

def Rt.pure {α : Type} (a : α) : Rt α := fun s => (.ok a, s)

def Rt.bind {α β : Type} (x : Rt α) (f : α → Rt β) : Rt β := fun s =>
  match x s with
  | (.ok a, s1) => f a s1
  | (.raised e, s1) => (.raised e, s1)

instance : Monad Rt where
  pure := Rt.pure
  bind := Rt.bind

/-- The statement `throw`. -/
def raise {α : Type} (e : Exn) : Rt α := fun s => (.raised e, s)

/-- The block `try { body } catch (optix::Exception& e) { handler }`. -/
def tryCatch {α : Type} (body : Rt α) (handler : Nat → Rt α) : Rt α := fun s =>
  match body s with
  | (.ok a, s1) => (.ok a, s1)
  | (.raised (.optix site), s1) => handler site s1
  | (.raised .undefined, s1) => (.raised .undefined, s1)

def getApp : Rt Application := fun s => (.ok s.app, s)

def getCfg : Rt Config := fun s => (.ok s.cfg, s)

def modifyApp (f : Application → Application) : Rt Unit :=
  fun s => (.ok (), { s with app := f s.app })

def emit (e : Event) : Rt Unit :=
  fun s => (.ok (), { s with trace := s.trace ++ [e] })

/-- A graphics API call. -/
def gl (api : GlApi) (args : List Arg) : Rt Unit := emit (.gl ⟨api, args⟩)

/-- A call on `m_pinholeCamera`. -/
def camera (c : CameraCall) : Rt Unit := emit (.camera c)

/-- The statement `std::cerr << e.getErrorString() << std::endl;` of the catch blocks. -/
def logError (site : Nat) : Rt Unit := emit (.cerr (.errorString site))

/-- Dereference of a handle (`operator->`). -/
def deref (h : Option Handle) : Rt Handle :=
  match h with
  | some k => Rt.pure k
  | none => raise .undefined

/-- A call through the C++ wrapper of the runtime. It raises `optix::Exception` when
the runtime fails it, either because the world says so or because the runtime's object
model rejects it (`effect` gives `none`); otherwise it has the given effect and result. -/
def rtCall {α : Type} (api : Api) (target : Option Handle) (args : List Arg)
    (effect : Runtime → Option (α × Runtime)) : Rt α := fun s =>
  let s1 := { s with rtCalls := s.rtCalls + 1 }
  if s.fails s.rtCalls then
    (.raised (.optix s.rtCalls), { s1 with trace := s.trace ++ [.rtFailed ⟨api, target, args⟩] })
  else
    match effect s.runtime with
    | some (a, r) => (.ok a, { s1 with trace := s.trace ++ [.rt ⟨api, target, args⟩], runtime := r })
    | none =>
      (.raised (.optix s.rtCalls), { s1 with trace := s.trace ++ [.rtFailed ⟨api, target, args⟩] })

/-- A call of the C API under `RT_CHECK_ERROR_NO_CONTEXT`. It gives `true` when the
call succeeded. -/
def RT_CHECK_ERROR_NO_CONTEXT (api : Api) (args : List Arg) : Rt Bool := fun s =>
  let s1 := { s with rtCalls := s.rtCalls + 1 }
  if s.fails s.rtCalls then
    let s2 := { s1 with trace := s.trace ++ [.rtFailed ⟨api, none, args⟩] }
    if s.cfg.checkErrorRaises then (.raised (.optix s.rtCalls), s2)
    else (.ok false, { s2 with trace := s2.trace ++ [.cerr (.checkError s.rtCalls)] })
  else
    (.ok true, { s1 with trace := s.trace ++ [.rt ⟨api, none, args⟩] })

/-! ### The runtime's object model -/

/-- The store after creating a new object. -/
def Runtime.alloc (r : Runtime) (o : RtObject) : Handle × Runtime :=
  (r.next, { r with next := r.next + 1,
                    objs := fun k => if k = r.next then some o else r.objs k })

/-- The store after changing the object behind `h`. -/
def Runtime.update (r : Runtime) (h : Handle) (f : RtObject → RtObject) : Runtime :=
  { r with objs := fun k => if k = h then (r.objs h).map f else r.objs k }

/-- An array resized to `n` entries: kept entries stay, new entries are null. -/
def resize (l : List (Option Handle)) (n : Nat) : List (Option Handle) :=
  (l ++ List.replicate n none).take n

/-- Creation of an object. -/
def create (api : Api) (target : Option Handle) (args : List Arg) (o : RtObject) :
    Rt Handle := do
  let h ← deref target
  rtCall api (some h) args (fun r => some (r.alloc o))

/-- A method that changes the state of the object it is called on. -/
def method (api : Api) (target : Option Handle) (args : List Arg)
    (f : RtObject → RtObject) : Rt Unit := do
  let h ← deref target
  rtCall api (some h) args (fun r => some ((), r.update h f))

/-- A method that reads from the object it is called on. -/
def query {α : Type} (api : Api) (target : Option Handle) (args : List Arg)
    (f : RtObject → α) (dflt : α) : Rt α := do
  let h ← deref target
  rtCall api (some h) args (fun r => some (((r.objs h).map f).getD dflt, r))

/-- The methods `setChild(index, child)` and `setMaterial(index, material)`: the runtime
rejects an index outside the array. -/
def setSlot (api : Api) (target : Option Handle) (index : Nat) (value : Option Handle)
    (get : RtObject → List (Option Handle))
    (set : RtObject → List (Option Handle) → RtObject) : Rt Unit := do
  let h ← deref target
  rtCall api (some h) [.nat index, .obj value] (fun r =>
    match r.objs h with
    | some o =>
      if index < (get o).length then
        some ((), r.update h (fun o => set o ((get o).set index value)))
      else none
    | none => none)

/-- The lookup `it = m_mapOfPrograms.find(key); MY_ASSERT(it != m_mapOfPrograms.end());`
followed by the use of `it->second`. -/
def findProgram (key : String) : Rt Handle := do
  let app ← getApp
  match app.m_mapOfPrograms.lookup key with
  | some p => pure p
  | none => raise .undefined

/-- The assignment `m_mapOfPrograms[key] = program`. -/
def insertProgram (key : String) (program : Handle) (m : List (String × Handle)) :
    List (String × Handle) :=
  (key, program) :: m.filter (fun kv => kv.1 != key)

/-- The loop `for (unsigned int i = 0; i < n; ++i) body(i)`. -/
def forUpTo (n : Nat) (body : Nat → Rt Unit) : Rt Unit :=
  (List.range n).foldl (fun acc i => Rt.bind acc (fun _ => body i)) (Rt.pure ())

/-- The loop `for (size_t i = 0; i < v.size(); ++i) body(v[i])`. -/
def forEach {α : Type} (v : List α) (body : α → Rt Unit) : Rt Unit :=
  v.foldl (fun acc a => Rt.bind acc (fun _ => body a)) (Rt.pure ())

/-- The macro `MY_ASSERT(cond)`. -/
def MY_ASSERT (cond : Bool) : Rt Unit := do
  let cfg ← getCfg
  if cfg.assertsEnabled && !cond then raise .undefined else pure ()

/-! ## Constants -/

def f0 : F32 := ⟨0⟩
def f1 : F32 := ⟨0x3F800000⟩
def fNeg1 : F32 := ⟨0xBF800000⟩
def f5 : F32 := ⟨0x40A00000⟩
def f10 : F32 := ⟨0x41200000⟩

/-- The array `trafoPlane` of `createScene`. -/
def trafoPlane : List F32 :=
  [f5, f0, f0, f0,
   f0, f5, f0, f0,
   f0, f0, f5, f0,
   f0, f0, f0, f1]

/-- The array `trafoSphere` of `createScene`. -/
def trafoSphere : List F32 :=
  [f1, f0, f0, f0,
   f0, f1, f0, f1,
   f0, f0, f1, f0,
   f0, f0, f0, f1]

/-! ## The operations of `Application` -/

/-- The ten attribute queries of one round of the loop in `getSystemInformation`. -/
def deviceAttributes : List String :=
  ["RT_DEVICE_ATTRIBUTE_NAME", "RT_DEVICE_ATTRIBUTE_COMPUTE_CAPABILITY",
   "RT_DEVICE_ATTRIBUTE_TOTAL_MEMORY", "RT_DEVICE_ATTRIBUTE_CLOCK_RATE",
   "RT_DEVICE_ATTRIBUTE_MAX_THREADS_PER_BLOCK", "RT_DEVICE_ATTRIBUTE_MULTIPROCESSOR_COUNT",
   "RT_DEVICE_ATTRIBUTE_EXECUTION_TIMEOUT_ENABLED",
   "RT_DEVICE_ATTRIBUTE_MAX_HARDWARE_TEXTURE_COUNT", "RT_DEVICE_ATTRIBUTE_TCC_DRIVER",
   "RT_DEVICE_ATTRIBUTE_CUDA_DEVICE_ORDINAL"]

/-- The statements `unsigned int numberOfDevices = 0;
RT_CHECK_ERROR_NO_CONTEXT(rtDeviceGetDeviceCount(&numberOfDevices));`. -/
def getDeviceCount : Rt Nat := do
  let ok ← RT_CHECK_ERROR_NO_CONTEXT .rtDeviceGetDeviceCount []
  let cfg ← getCfg
  pure (if ok then cfg.numberOfDevices else 0)

/-- The function `Application::getSystemInformation`. -/
def getSystemInformation : Rt Unit := do
  let _ ← RT_CHECK_ERROR_NO_CONTEXT .rtGetVersion []
  let numberOfDevices ← getDeviceCount
  forUpTo numberOfDevices (fun i =>
    forEach deviceAttributes (fun attr => do
      let _ ← RT_CHECK_ERROR_NO_CONTEXT .rtDeviceGetAttribute [.nat i, .str attr]
      pure ()))

/-- The function `Application::initOpenGL`. The body of `initGLSL` consists of graphics
calls only and is recorded as one event. -/
def initOpenGL : Rt Unit := do
  gl .glClearColor [.floats [f0, f0, f0, f0]]
  let app ← getApp
  gl .glViewport [.int 0, .int 0, .int app.m_width, .int app.m_height]
  gl .glMatrixMode [.str "GL_PROJECTION"]
  gl .glLoadIdentity []
  gl .glMatrixMode [.str "GL_MODELVIEW"]
  gl .glLoadIdentity []
  if app.m_interop then
    let cfg ← getCfg
    gl .glGenBuffers [.nat 1]
    modifyApp (fun a => { a with m_pboOutputBuffer := cfg.pboName })
    MY_ASSERT (cfg.pboName != 0)
    gl .glBindBuffer [.str "GL_PIXEL_UNPACK_BUFFER", .nat cfg.pboName]
    gl .glBufferData [.str "GL_PIXEL_UNPACK_BUFFER",
      .nat (toSizeT (wrapInt32 (app.m_width * app.m_height)) * 4 * 4 % 2 ^ 64),
      .str "GL_STREAM_READ"]
    gl .glBindBuffer [.str "GL_PIXEL_UNPACK_BUFFER", .nat 0]
  let cfg ← getCfg
  gl .glGenTextures [.nat 1]
  modifyApp (fun a => { a with m_hdrTexture := cfg.textureName })
  MY_ASSERT (cfg.textureName != 0)
  gl .glActiveTexture [.str "GL_TEXTURE0"]
  gl .glBindTexture [.str "GL_TEXTURE_2D", .nat cfg.textureName]
  gl .glTexParameteri [.str "GL_TEXTURE_MAG_FILTER", .str "GL_NEAREST"]
  gl .glTexParameteri [.str "GL_TEXTURE_MIN_FILTER", .str "GL_NEAREST"]
  gl .glTexParameteri [.str "GL_TEXTURE_WRAP_S", .str "GL_CLAMP_TO_EDGE"]
  gl .glTexParameteri [.str "GL_TEXTURE_WRAP_T", .str "GL_CLAMP_TO_EDGE"]
  gl .glBindTexture [.str "GL_TEXTURE_2D", .nat 0]
  gl .glTexEnvi [.str "GL_TEXTURE_ENV_MODE", .str "GL_REPLACE"]
  gl .initGLSL []

/-- One line of `initPrograms`:
`m_mapOfPrograms[key] = m_context->createProgramFromPTXFile(ptxPath(file), name);`
with the right-hand side evaluated first. -/
def loadProgram (key file name : String) : Rt Unit := do
  let app ← getApp
  let program ← create .createProgramFromPTXFile app.m_context [.str file, .str name]
    { kind := .program }
  modifyApp (fun a => { a with m_mapOfPrograms := insertProgram key program a.m_mapOfPrograms })

/-- The function `Application::initPrograms`. -/
def initPrograms : Rt Unit :=
  tryCatch (do
    loadProgram "raygeneration" "raygeneration.cu" "raygeneration"
    loadProgram "exception" "exception.cu" "exception"
    loadProgram "miss" "miss.cu" "miss_environment_constant"
    loadProgram "boundingbox_triangle_indexed" "boundingbox_triangle_indexed.cu"
      "boundingbox_triangle_indexed"
    loadProgram "intersection_triangle_indexed" "intersection_triangle_indexed.cu"
      "intersection_triangle_indexed"
    loadProgram "closesthit" "closesthit.cu" "closesthit")
  logError

/-- A statement `m_context[name]->setFloat(x, y, z);`. -/
def setContextFloat3 (name : String) (v : List F32) : Rt Unit := do
  let app ← getApp
  method .setVariable app.m_context [.str name, .floats v] id

/-- A statement `object[name]->set(value);` or `object[name]->setBuffer(value);`. -/
def setObjectVariable (object : Option Handle) (name : String) (value : Option Handle) :
    Rt Unit :=
  method .setVariable object [.str name, .obj value]
    (fun o => { o with vars := (name, value) :: o.vars })

/-- A statement that attaches a program to a slot of an object. -/
def setProgram (api : Api) (object : Option Handle) (slot : String) (index : List Arg)
    (program : Handle) : Rt Unit :=
  method api object (index ++ [.obj (some program)])
    (fun o => { o with programs := (slot, some program) :: o.programs })

/-- The function `Application::initRenderer`. -/
def initRenderer : Rt Unit :=
  tryCatch (do
    let app ← getApp
    let cfg ← getCfg
    method .setEntryPointCount app.m_context [.nat 1] id
    method .setRayTypeCount app.m_context [.nat 1] id
    method .setStackSize app.m_context [.nat app.m_stackSize] id
    if cfg.USE_DEBUG_EXCEPTIONS then
      method .setPrintEnabled app.m_context [.bool true] id
      method .setExceptionEnabled app.m_context [.str "RT_EXCEPTION_ALL", .bool true] id
    let buffer ←
      if app.m_interop then
        create .createBufferFromGLBO app.m_context
          [.str "RT_BUFFER_INPUT_OUTPUT", .nat app.m_pboOutputBuffer]
          { kind := .buffer, glbo := app.m_pboOutputBuffer, registered := true }
      else
        create .createBuffer app.m_context [.str "RT_BUFFER_INPUT_OUTPUT"] { kind := .buffer }
    modifyApp (fun a => { a with m_bufferOutput := some buffer })
    method .setFormat (some buffer) [.str "RT_FORMAT_FLOAT4"]
      (fun o => { o with elementSize := 16 })
    method .setSize (some buffer) [.int app.m_width, .int app.m_height]
      (fun o => { o with size := [toSizeT app.m_width, toSizeT app.m_height] })
    setObjectVariable app.m_context "sysOutputBuffer" (some buffer)
    let program ← findProgram "raygeneration"
    setProgram .setRayGenerationProgram app.m_context "raygeneration" [.nat 0] program
    let program ← findProgram "exception"
    setProgram .setExceptionProgram app.m_context "exception" [.nat 0] program
    let program ← findProgram "miss"
    setProgram .setMissProgram app.m_context "miss" [.nat 0] program
    setContextFloat3 "sysCameraPosition" [f0, f0, f1]
    setContextFloat3 "sysCameraU" [f1, f0, f0]
    setContextFloat3 "sysCameraV" [f0, f1, f0]
    setContextFloat3 "sysCameraW" [f0, f0, fNeg1])
  logError

/-- The function `Application::createGeometry`. The local `geometry` is assigned by the
first statement of the try block and returned after it, so the block is split behind
that statement: both halves have the same handler. -/
def createGeometry (mesh : Mesh) : Rt (Option Handle) := do
  let app ← getApp
  let cfg ← getCfg
  let geometry ← tryCatch
    (do
      let g ← create .createGeometry app.m_context [] { kind := .geometry }
      pure (some g))
    (fun site => do
      logError site
      pure none)
  match geometry with
  | none => pure none
  | some g =>
    tryCatch (do
      let attributesBuffer ← create .createBuffer app.m_context
        [.str "RT_BUFFER_INPUT", .str "RT_FORMAT_USER"] { kind := .buffer }
      method .setElementSize (some attributesBuffer) [.nat cfg.sizeofVertexAttributes]
        (fun o => { o with elementSize := cfg.sizeofVertexAttributes })
      method .setSize (some attributesBuffer) [.nat mesh.attributes]
        (fun o => { o with size := [mesh.attributes] })
      method .map (some attributesBuffer) [.nat 0, .str "RT_BUFFER_MAP_WRITE_DISCARD"] id
      method .unmap (some attributesBuffer) [] id
      let indicesBuffer ← create .createBuffer app.m_context
        [.str "RT_BUFFER_INPUT", .str "RT_FORMAT_UNSIGNED_INT3", .nat (mesh.indices / 3)]
        { kind := .buffer, elementSize := 12, size := [mesh.indices / 3] }
      method .map (some indicesBuffer) [.nat 0, .str "RT_BUFFER_MAP_WRITE_DISCARD"] id
      method .unmap (some indicesBuffer) [] id
      let program ← findProgram "boundingbox_triangle_indexed"
      setProgram .setBoundingBoxProgram (some g) "boundingbox" [] program
      let program ← findProgram "intersection_triangle_indexed"
      setProgram .setIntersectionProgram (some g) "intersection" [] program
      setObjectVariable (some g) "attributesBuffer" (some attributesBuffer)
      setObjectVariable (some g) "indicesBuffer" (some indicesBuffer)
      method .setPrimitiveCount (some g) [.nat (mesh.indices % 2 ^ 32 / 3)]
        (fun o => { o with primitiveCount := mesh.indices % 2 ^ 32 / 3 }))
      logError
    pure (some g)

/-- Modelled from the spec: `Application::createPlane` is defined in another file; it is
one of the "generated geometry creation routines" that build the vertex and index
vectors of the ground plane and end in `createGeometry`. -/
def createPlane : Rt (Option Handle) := do
  let cfg ← getCfg
  createGeometry cfg.plane

/-- Modelled from the spec: `Application::createSphere` is defined in another file; it
builds the vertex and index vectors of the sphere and ends in `createGeometry`. -/
def createSphere : Rt (Option Handle) := do
  let cfg ← getCfg
  createGeometry cfg.sphere

/-- The function `Application::initMaterials`. -/
def initMaterials : Rt Unit :=
  tryCatch (do
    let app ← getApp
    let material ← create .createMaterial app.m_context [] { kind := .material }
    modifyApp (fun a => { a with m_opaqueMaterial := some material })
    let program ← findProgram "closesthit"
    setProgram .setClosestHitProgram (some material) "closesthit" [.nat 0] program)
  logError

/-- A statement `acceleration->setProperty(name, value);`. -/
def setProperty (acceleration : Option Handle) (name value : String) : Rt Unit :=
  method .setProperty acceleration [.str name, .str value]
    (fun o => { o with properties := (name, value) :: o.properties })

/-- The function `Application::setAccelerationProperties`. -/
def setAccelerationProperties (acceleration : Option Handle) : Rt Unit := do
  let app ← getApp
  let cfg ← getCfg
  if app.m_builder = "Trbvh" ∨ app.m_builder = "Sbvh" then
    setProperty acceleration "vertex_buffer_name" "attributesBuffer"
    MY_ASSERT (cfg.sizeofVertexAttributes == 48)
    setProperty acceleration "vertex_buffer_stride" "48"
    setProperty acceleration "index_buffer_name" "indicesBuffer"
    setProperty acceleration "index_buffer_stride" "12"
  else pure ()

/-- A statement `m_context->createAcceleration(m_builder)`. -/
def createAcceleration : Rt Handle := do
  let app ← getApp
  create .createAcceleration app.m_context [.str app.m_builder]
    { kind := .acceleration, builder := app.m_builder }

/-- A statement `node->setAcceleration(acceleration);`. -/
def setAcceleration (node acceleration : Option Handle) : Rt Unit :=
  method .setAcceleration node [.obj acceleration]
    (fun o => { o with acceleration := acceleration })

/-- A statement `node->setChildCount(count);` on a group or geometry group. -/
def setChildCount (node : Option Handle) (count : Nat) : Rt Unit :=
  method .setChildCount node [.nat count]
    (fun o => { o with children := resize o.children count })

/-- A statement `node->setChild(index, child);` on a group or geometry group. -/
def setChild (node : Option Handle) (index : Nat) (child : Option Handle) : Rt Unit :=
  setSlot .setChild node index child (fun o => o.children)
    (fun o l => { o with children := l })

/-- A call `node->getChildCount()`. -/
def getChildCount (node : Option Handle) : Rt Nat :=
  query .getChildCount node [] (fun o => o.children.length) 0

/-- The statements that wrap a geometry into a geometry instance with the one
material:
`gi = m_context->createGeometryInstance(); gi->setGeometry(geo); gi->setMaterialCount(1);
gi->setMaterial(0, m_opaqueMaterial);`. -/
def createInstance (geometry : Option Handle) : Rt Handle := do
  let app ← getApp
  let gi ← create .createGeometryInstance app.m_context [] { kind := .geometryInstance }
  method .setGeometry (some gi) [.obj geometry] (fun o => { o with geometry := geometry })
  method .setMaterialCount (some gi) [.nat 1]
    (fun o => { o with materials := resize o.materials 1 })
  let app ← getApp
  setSlot .setMaterial (some gi) 0 app.m_opaqueMaterial (fun o => o.materials)
    (fun o l => { o with materials := l })
  pure gi

/-- The statements that put a geometry instance under a geometry group:
`gg = m_context->createGeometryGroup(); gg->setAcceleration(acc); gg->setChildCount(1);
gg->setChild(0, gi);`. -/
def createGeometryGroup (acceleration gi : Handle) : Rt Handle := do
  let app ← getApp
  let gg ← create .createGeometryGroup app.m_context [] { kind := .geometryGroup }
  setAcceleration (some gg) (some acceleration)
  setChildCount (some gg) 1
  setChild (some gg) 0 (some gi)
  pure gg

/-- The statements that put a geometry group under a transform and the transform into
the root group:
`tr = m_context->createTransform(); tr->setChild(gg); tr->setMatrix(false, m, inverse);
count = m_rootGroup->getChildCount(); m_rootGroup->setChildCount(count + 1);
m_rootGroup->setChild(count, tr);`. -/
def addTransformed (gg : Handle) (trafo : List F32) : Rt Unit := do
  let app ← getApp
  let tr ← create .createTransform app.m_context [] { kind := .transform }
  method .setChild (some tr) [.obj (some gg)] (fun o => { o with children := [some gg] })
  method .setMatrix (some tr) [.bool false, .floats trafo] (fun o => { o with matrix := trafo })
  let count ← getChildCount app.m_rootGroup
  setChildCount app.m_rootGroup ((count + 1) % 2 ^ 32)
  setChild app.m_rootGroup count (some tr)

/-- The function `Application::createScene`. -/
def createScene : Rt Unit := do
  initMaterials
  tryCatch (do
    let rootAcceleration ← createAcceleration
    modifyApp (fun a => { a with m_rootAcceleration := some rootAcceleration })
    let app ← getApp
    let rootGroup ← create .createGroup app.m_context [] { kind := .group }
    modifyApp (fun a => { a with m_rootGroup := some rootGroup })
    setAcceleration (some rootGroup) (some rootAcceleration)
    setObjectVariable app.m_context "sysTopObject" (some rootGroup)
    -- the ground plane
    let geoPlane ← createPlane
    let giPlane ← createInstance geoPlane
    let accPlane ← createAcceleration
    setAccelerationProperties (some accPlane)
    let ggPlane ← createGeometryGroup accPlane giPlane
    addTransformed ggPlane trafoPlane
    -- the sphere
    let geoSphere ← createSphere
    let accSphere ← createAcceleration
    setAccelerationProperties (some accSphere)
    let giSphere ← createInstance geoSphere
    let ggSphere ← createGeometryGroup accSphere giSphere
    addTransformed ggSphere trafoSphere)
    logError

/-- The function `Application::initScene`. -/
def initScene : Rt Unit :=
  tryCatch (do
    createScene
    let app ← getApp
    method .validate app.m_context [] id
    method .launch app.m_context [.nat 0, .int 0, .int 0] id)
  logError

/-- The function `Application::initOptiX`. -/
def initOptiX : Rt Unit :=
  tryCatch (do
    getSystemInformation
    let context ← rtCall .Context_create none [] (fun r => some (r.alloc { kind := .context }))
    modifyApp (fun a => { a with m_context := some context })
    let numberOfDevices ← getDeviceCount
    let app ← getApp
    let devices := selectDevices app.m_devicesEncoding numberOfDevices
    method .setDevices app.m_context [.ints devices] id
    let cfg ← getCfg
    let context ← deref app.m_context
    let devices ← rtCall .getEnabledDevices (some context) [] (fun r => some (cfg.enabledDevices, r))
    forEach devices (fun device => method .getDeviceName app.m_context [.int device] id)
    initPrograms
    initRenderer
    initScene
    modifyApp (fun a => { a with m_isValid := true }))
  logError

/-- The constructor `Application::Application`. The members it does not mention keep
the value they have in the state it starts from; the setup of the GUI toolkit is not
modelled. -/
def construct (width height : Int) (devices stackSize : Nat) (interop : Bool) : Rt Unit := do
  modifyApp (fun a => { a with
    m_width := width, m_height := height, m_devicesEncoding := devices,
    m_stackSize := stackSize, m_interop := interop,
    m_context := none, m_bufferOutput := none, m_mapOfPrograms := [],
    m_opaqueMaterial := none, m_rootAcceleration := none, m_rootGroup := none })
  modifyApp (fun a => { a with
    m_builder := "Trbvh", m_guiState := .GUI_STATE_NONE, m_isWindowVisible := true,
    m_mouseSpeedRatio := f10 })
  camera (.setViewport width height)
  initOpenGL
  initOptiX

/-- The destructor `Application::~Application`. -/
def destruct : Rt Unit := do
  let app ← getApp
  if app.m_isValid then
    method .destroy app.m_context [] id
  else pure ()

/-- The function `Application::isValid`. -/
def isValid (app : Application) : Bool := app.m_isValid

/-- The function `Application::reshape`. -/
def reshape (width height : Int) : Rt Unit := do
  let app ← getApp
  if (width ≠ 0 ∧ height ≠ 0) ∧ (app.m_width ≠ width ∨ app.m_height ≠ height) then
    modifyApp (fun a => { a with m_width := width, m_height := height })
    let app ← getApp
    gl .glViewport [.int 0, .int 0, .int app.m_width, .int app.m_height]
    tryCatch (do
      method .setSize app.m_bufferOutput [.int app.m_width, .int app.m_height]
        (fun o => { o with size := [toSizeT app.m_width, toSizeT app.m_height] })
      if app.m_interop then
        method .unregisterGLBuffer app.m_bufferOutput [] (fun o => { o with registered := false })
        let glbo ← query .getGLBOId app.m_bufferOutput [] (fun o => o.glbo) 0
        gl .glBindBuffer [.str "GL_PIXEL_UNPACK_BUFFER", .nat glbo]
        let elementSize ← query .getElementSize app.m_bufferOutput [] (fun o => o.elementSize) 0
        gl .glBufferData [.str "GL_PIXEL_UNPACK_BUFFER",
          .nat (elementSize * toSizeT app.m_width * toSizeT app.m_height % 2 ^ 64),
          .str "GL_STREAM_DRAW"]
        gl .glBindBuffer [.str "GL_PIXEL_UNPACK_BUFFER", .nat 0]
        method .registerGLBuffer app.m_bufferOutput [] (fun o => { o with registered := true })
      else pure ())
      logError
    camera (.setViewport app.m_width app.m_height)
  else pure ()

/-- What `m_pinholeCamera.getFrustum` answers: its result and the four vectors. -/
structure Frustum where
  cameraChanged : Bool
  cameraPosition : List F32
  cameraU : List F32
  cameraV : List F32
  cameraW : List F32

/-- The function `Application::render`. The local `repaint` is set by the last statement
of the try block, so it is the value of that block. -/
def render (frustum : Frustum) : Rt Bool :=
  tryCatch (do
    let app ← getApp
    camera .getFrustum
    if frustum.cameraChanged then
      setContextFloat3 "sysCameraPosition" frustum.cameraPosition
      setContextFloat3 "sysCameraU" frustum.cameraU
      setContextFloat3 "sysCameraV" frustum.cameraV
      setContextFloat3 "sysCameraW" frustum.cameraW
    method .launch app.m_context [.nat 0, .int app.m_width, .int app.m_height] id
    gl .glActiveTexture [.str "GL_TEXTURE0"]
    gl .glBindTexture [.str "GL_TEXTURE_2D", .nat app.m_hdrTexture]
    if app.m_interop then
      let glbo ← query .getGLBOId app.m_bufferOutput [] (fun o => o.glbo) 0
      gl .glBindBuffer [.str "GL_PIXEL_UNPACK_BUFFER", .nat glbo]
      gl .glTexImage2D [.int app.m_width, .int app.m_height, .str "offset 0"]
      gl .glBindBuffer [.str "GL_PIXEL_UNPACK_BUFFER", .nat 0]
    else
      method .map app.m_bufferOutput [.nat 0, .str "RT_BUFFER_MAP_READ"] id
      gl .glTexImage2D [.int app.m_width, .int app.m_height, .str "data"]
      method .unmap app.m_bufferOutput [] id
    pure true)
  (fun site => do
    logError site
    pure false)

/-- The function `Application::screenshot`. The helper `sutil::writeBufferToFile` reads
the buffer through the runtime. -/
def screenshot (filename : String) : Rt Unit := do
  let app ← getApp
  rtCall .writeBufferToFile none [.str filename, .obj app.m_bufferOutput] (fun r => some ((), r))
  emit (.cerr (.wrote filename))

/-! ## Properties of traces -/

/-- The events a piece of code adds to the trace when run in state `s`. -/
def emitted {α : Type} (x : Rt α) (s : Sys) : List Event :=
  (x s).2.trace.drop s.trace.length

/-- The event is a call of `api` on the object, returned or failed. -/
def isCall (api : Api) (object : Handle) : Event → Bool
  | .rt c => c.api == api && c.target == some object
  | .rtFailed c => c.api == api && c.target == some object
  | _ => false

/-- The event is a call into the runtime that failed. -/
def isFailed : Event → Bool
  | .rtFailed _ => true
  | _ => false

/-- The events of a `try` block that issues `calls` in order, in a world with the given
failures, together with whether the block came to its end: the first runtime call that
fails ends the block, and the `catch` block writes the error string. `site` numbers the
next runtime call. -/
def tryBlock (fails : Nat → Bool) : Nat → List Event → List Event × Bool
  | _, [] => ([], true)
  | site, .rt c :: rest =>
    if fails site then ([.rtFailed c, .cerr (.errorString site)], false)
    else (.rt c :: (tryBlock fails (site + 1) rest).1, (tryBlock fails (site + 1) rest).2)
  | site, e :: rest => (e :: (tryBlock fails site rest).1, (tryBlock fails site rest).2)

/-- The number of runtime calls in a sequence of events. -/
def rtCount : List Event → Nat
  | [] => 0
  | .rt _ :: rest => rtCount rest + 1
  | _ :: rest => rtCount rest

/-- The calls in the `try` block of `render`, in the order of the source, when none
fails: the camera query, the four camera variables when the frustum changed, the launch,
and the transfer of the output buffer to the texture, through the pixel buffer object
with interop and through `map`/`unmap` without. `glbo` is what the runtime reports for
the buffer. -/
def renderCalls (app : Application) (frustum : Frustum) (context buffer : Handle)
    (glbo : Nat) : List Event :=
  [.camera .getFrustum] ++
  (if frustum.cameraChanged then
    [.rt ⟨.setVariable, some context, [.str "sysCameraPosition", .floats frustum.cameraPosition]⟩,
     .rt ⟨.setVariable, some context, [.str "sysCameraU", .floats frustum.cameraU]⟩,
     .rt ⟨.setVariable, some context, [.str "sysCameraV", .floats frustum.cameraV]⟩,
     .rt ⟨.setVariable, some context, [.str "sysCameraW", .floats frustum.cameraW]⟩]
   else []) ++
  [.rt ⟨.launch, some context, [.nat 0, .int app.m_width, .int app.m_height]⟩,
   .gl ⟨.glActiveTexture, [.str "GL_TEXTURE0"]⟩,
   .gl ⟨.glBindTexture, [.str "GL_TEXTURE_2D", .nat app.m_hdrTexture]⟩] ++
  (if app.m_interop then
    [.rt ⟨.getGLBOId, some buffer, []⟩,
     .gl ⟨.glBindBuffer, [.str "GL_PIXEL_UNPACK_BUFFER", .nat glbo]⟩,
     .gl ⟨.glTexImage2D, [.int app.m_width, .int app.m_height, .str "offset 0"]⟩,
     .gl ⟨.glBindBuffer, [.str "GL_PIXEL_UNPACK_BUFFER", .nat 0]⟩]
   else
    [.rt ⟨.map, some buffer, [.nat 0, .str "RT_BUFFER_MAP_READ"]⟩,
     .gl ⟨.glTexImage2D, [.int app.m_width, .int app.m_height, .str "data"]⟩,
     .rt ⟨.unmap, some buffer, []⟩])

/-- No `optix::Exception` leaves the piece of code, whatever the state it starts in. -/
def Catches {α : Type} (x : Rt α) : Prop :=
  ∀ (s : Sys) (site : Nat), (x s).1 ≠ .raised (.optix site)

/-- The piece of code leaves `m_builder` as it is, whatever the state it starts in and
however it ends. -/
def KeepsBuilder {α : Type} (x : Rt α) : Prop :=
  ∀ s : Sys, (x s).2.app.m_builder = s.app.m_builder

/-- The four properties, latest first, as `setAccelerationProperties` sets them. -/
def strideProperties : List (String × String) :=
  [("index_buffer_stride", "12"), ("index_buffer_name", "indicesBuffer"),
   ("vertex_buffer_stride", "48"), ("vertex_buffer_name", "attributesBuffer")]

/-! ## Sample inputs -/

/-- An application object before construction: no member set. -/
def rawApp : Application :=
  { m_width := 0, m_height := 0, m_devicesEncoding := 0, m_stackSize := 0, m_interop := false,
    m_isValid := false, m_builder := "", m_pboOutputBuffer := 0, m_hdrTexture := 0,
    m_guiState := .GUI_STATE_NONE, m_isWindowVisible := false, m_mouseSpeedRatio := f0,
    m_context := none, m_bufferOutput := none, m_mapOfPrograms := [], m_opaqueMaterial := none,
    m_rootAcceleration := none, m_rootGroup := none }

/-- One device, a two-triangle plane, the sphere of the sample, asserts enabled. -/
def sampleCfg : Config :=
  { USE_DEBUG_EXCEPTIONS := false, checkErrorRaises := false, sizeofVertexAttributes := 48,
    plane := ⟨4, 6⟩, sphere := ⟨16471, 97200⟩, optixVersion := 50100, numberOfDevices := 1,
    enabledDevices := [0], pboName := 1, textureName := 1, assertsEnabled := true }

/-- The state before the constructor runs, with the given failures of runtime calls. -/
def rawSys (fails : Nat → Bool) : Sys :=
  { app := rawApp, cfg := sampleCfg, fails := fails, rtCalls := 0, trace := [],
    runtime := { next := 0, objs := fun _ => none } }

/-- The state after `Application(window, 640, 480, 0, 1024, true)` when no call fails. -/
def readySys : Sys :=
  (construct 640 480 0 1024 true (rawSys (fun _ => false))).2

/-- The world in which exactly the runtime call number 23 fails: on the sample
configuration this is `setEntryPointCount`, the first call of `initRenderer`. -/
def rendererFails : Nat → Bool := fun k => k == 23

/-- The state after `Application(window, 640, 480, 0, 1024, true)` when `initRenderer`
fails at its first call: the output buffer is never created. -/
def noBufferSys : Sys :=
  (construct 640 480 0 1024 true (rawSys rendererFails)).2

/-- The world in which exactly the runtime call number 12 fails: on the sample
configuration this is `Context::create`. -/
def contextFails : Nat → Bool := fun k => k == 12

/-- The state after `Application(window, 640, 480, 0, 1024, true)` when the creation of
the context fails. -/
def noContextSys : Sys :=
  (construct 640 480 0 1024 true (rawSys contextFails)).2

/-- An input with the right button held down at (100, 200), the GUI not capturing the
mouse. -/
def rightDown : GuiInput :=
  { IsKeyPressedSpace := false, GetMousePos := ⟨⟨0x42C80000⟩, ⟨0x43480000⟩⟩,
    WantCaptureMouse := false, MouseWheel := ⟨0⟩,
    IsMouseDown := fun b => b == 1, IsMouseReleased := fun _ => false }

/-- An input with the left button pressed and the right button released at (100, 200). -/
def leftDownRightReleased : GuiInput :=
  { IsKeyPressedSpace := false, GetMousePos := ⟨⟨0x42C80000⟩, ⟨0x43480000⟩⟩,
    WantCaptureMouse := false, MouseWheel := ⟨0⟩,
    IsMouseDown := fun b => b == 0, IsMouseReleased := fun b => b == 1 }

/-- An input with the left button pressed and held, the others up, at (100, 200). -/
def leftDown : GuiInput :=
  { IsKeyPressedSpace := false, GetMousePos := ⟨⟨0x42C80000⟩, ⟨0x43480000⟩⟩,
    WantCaptureMouse := false, MouseWheel := ⟨0⟩,
    IsMouseDown := fun b => b == 0, IsMouseReleased := fun _ => false }

/-- An input with the left button held down at (100.75, -2.5), the wheel turned. -/
def fractionalLeftDown : GuiInput :=
  { IsKeyPressedSpace := false, GetMousePos := ⟨⟨0x42C98000⟩, ⟨0xC0200000⟩⟩,
    WantCaptureMouse := false, MouseWheel := ⟨0x3F800000⟩,
    IsMouseDown := fun b => b == 0, IsMouseReleased := fun _ => false }

/-- The world in which exactly the runtime call number 110 fails: on the sample
configuration this is the dummy launch at the end of `initScene`. -/
def launchFails : Nat → Bool := fun k => k == 110

/-- A state in which `createScene` can run: a context, the six programs loaded, the
builder set by the constructor, no failing call. -/
def sceneSys : Sys :=
  { app := { rawApp with
      m_builder := "Trbvh", m_context := some 0,
      m_mapOfPrograms := [("closesthit", 6), ("intersection_triangle_indexed", 5),
        ("boundingbox_triangle_indexed", 4), ("miss", 3), ("exception", 2),
        ("raygeneration", 1)] },
    cfg := sampleCfg, fails := fun _ => false, rtCalls := 0, trace := [],
    runtime := { next := 7, objs := fun k => if k = 0 then some { kind := .context } else none } }

/-- A frustum the camera reports as unchanged. -/
def unchangedFrustum : Frustum :=
  { cameraChanged := false, cameraPosition := [f0, f0, f1], cameraU := [f1, f0, f0],
    cameraV := [f0, f1, f0], cameraW := [f0, f0, fNeg1] }

/-! # Theorems -/

/-! ## Running a piece of code: unfolding lemmas -/

@[simp] theorem bind_run {α β : Type} (x : Rt α) (f : α → Rt β) (s : Sys) :
    (x >>= f) s = match x s with
      | (.ok a, s1) => f a s1
      | (.raised e, s1) => (.raised e, s1) := rfl

@[simp] theorem pure_run {α : Type} (a : α) (s : Sys) : (pure a : Rt α) s = (.ok a, s) := rfl

@[simp] theorem Rt_pure_run {α : Type} (a : α) (s : Sys) : Rt.pure a s = (.ok a, s) := rfl

@[simp] theorem raise_run {α : Type} (e : Exn) (s : Sys) :
    (raise e : Rt α) s = (.raised e, s) := rfl

@[simp] theorem tryCatch_run {α : Type} (body : Rt α) (handler : Nat → Rt α) (s : Sys) :
    tryCatch body handler s = match body s with
      | (.ok a, s1) => (.ok a, s1)
      | (.raised (.optix site), s1) => handler site s1
      | (.raised .undefined, s1) => (.raised .undefined, s1) := rfl

@[simp] theorem getApp_run (s : Sys) : getApp s = (.ok s.app, s) := rfl

@[simp] theorem getCfg_run (s : Sys) : getCfg s = (.ok s.cfg, s) := rfl

@[simp] theorem modifyApp_run (f : Application → Application) (s : Sys) :
    modifyApp f s = (.ok (), { s with app := f s.app }) := rfl

@[simp] theorem emit_run (e : Event) (s : Sys) :
    emit e s = (.ok (), { s with trace := s.trace ++ [e] }) := rfl

@[simp] theorem gl_run (api : GlApi) (args : List Arg) (s : Sys) :
    gl api args s = (.ok (), { s with trace := s.trace ++ [.gl ⟨api, args⟩] }) := rfl

@[simp] theorem camera_run (c : CameraCall) (s : Sys) :
    camera c s = (.ok (), { s with trace := s.trace ++ [.camera c] }) := rfl

@[simp] theorem logError_run (site : Nat) (s : Sys) :
    logError site s = (.ok (), { s with trace := s.trace ++ [.cerr (.errorString site)] }) := rfl

@[simp] theorem deref_some (k : Handle) (s : Sys) : deref (some k) s = (.ok k, s) := rfl

@[simp] theorem deref_none (s : Sys) : deref none s = (.raised .undefined, s) := rfl

@[simp] theorem method_run (api : Api) (k : Handle) (args : List Arg)
    (f : RtObject → RtObject) (s : Sys) :
    method api (some k) args f s =
      if s.fails s.rtCalls then
        (.raised (.optix s.rtCalls),
          { s with rtCalls := s.rtCalls + 1,
                   trace := s.trace ++ [.rtFailed ⟨api, some k, args⟩] })
      else
        (.ok (), { s with rtCalls := s.rtCalls + 1,
                          trace := s.trace ++ [.rt ⟨api, some k, args⟩],
                          runtime := s.runtime.update k f }) := by
  simp only [method, bind_run, deref_some, rtCall]

@[simp] theorem method_null (api : Api) (args : List Arg) (f : RtObject → RtObject) (s : Sys) :
    method api none args f s = (.raised .undefined, s) := rfl

@[simp] theorem query_run {α : Type} (api : Api) (k : Handle) (args : List Arg)
    (f : RtObject → α) (dflt : α) (s : Sys) :
    query api (some k) args f dflt s =
      if s.fails s.rtCalls then
        (.raised (.optix s.rtCalls),
          { s with rtCalls := s.rtCalls + 1,
                   trace := s.trace ++ [.rtFailed ⟨api, some k, args⟩] })
      else
        (.ok (((s.runtime.objs k).map f).getD dflt),
          { s with rtCalls := s.rtCalls + 1,
                   trace := s.trace ++ [.rt ⟨api, some k, args⟩] }) := by
  simp only [query, bind_run, deref_some, rtCall]

@[simp] theorem create_null (api : Api) (args : List Arg) (o : RtObject) (s : Sys) :
    create api none args o s = (.raised .undefined, s) := rfl

@[simp] theorem query_null {α : Type} (api : Api) (args : List Arg) (f : RtObject → α)
    (dflt : α) (s : Sys) :
    query api none args f dflt s = (.raised .undefined, s) := rfl

@[simp] theorem create_run (api : Api) (k : Handle) (args : List Arg) (o : RtObject) (s : Sys) :
    create api (some k) args o s =
      if s.fails s.rtCalls then
        (.raised (.optix s.rtCalls),
          { s with rtCalls := s.rtCalls + 1,
                   trace := s.trace ++ [.rtFailed ⟨api, some k, args⟩] })
      else
        (.ok s.runtime.next,
          { s with rtCalls := s.rtCalls + 1,
                   trace := s.trace ++ [.rt ⟨api, some k, args⟩],
                   runtime := (s.runtime.alloc o).2 }) := by
  simp only [create, bind_run, deref_some, rtCall, Runtime.alloc]

@[simp] theorem setSlot_run (api : Api) (k : Handle) (index : Nat) (value : Option Handle)
    (get : RtObject → List (Option Handle))
    (set : RtObject → List (Option Handle) → RtObject) (s : Sys) :
    setSlot api (some k) index value get set s =
      rtCall api (some k) [.nat index, .obj value] (fun r =>
        match r.objs k with
        | some o =>
          if index < (get o).length then
            some ((), r.update k (fun o => set o ((get o).set index value)))
          else none
        | none => none) s := rfl

@[simp] theorem findProgram_run (key : String) (s : Sys) :
    findProgram key s =
      match s.app.m_mapOfPrograms.lookup key with
      | some p => (.ok p, s)
      | none => (.raised .undefined, s) := by
  simp only [findProgram, bind_run, getApp_run]
  cases h : List.lookup key s.app.m_mapOfPrograms <;> rfl

@[simp] theorem MY_ASSERT_run (cond : Bool) (s : Sys) :
    MY_ASSERT cond s =
      if s.cfg.assertsEnabled && !cond then (.raised .undefined, s) else (.ok (), s) := by
  simp only [MY_ASSERT, bind_run, getCfg_run]
  cases h : (s.cfg.assertsEnabled && !cond) <;> rfl

/-! ## Device selection: proofs -/

theorem numDigits_eq_log (e : Nat) : numDigits e = Nat.log 10 e + 1 := by
  unfold numDigits
  split
  · next h => subst h; simp
  · next h => exact Nat.digits_len 10 e (by norm_num) h

theorem numDigits_lt_ten (e : Nat) (h : e / 10 = 0) : numDigits e = 1 := by
  rw [numDigits_eq_log]
  have : e < 10 := by omega
  simp [Nat.log_of_lt this]

theorem numDigits_div_ten (e : Nat) (h : e / 10 ≠ 0) : numDigits e = numDigits (e / 10) + 1 := by
  rw [numDigits_eq_log, numDigits_eq_log, Nat.log_div_base]
  have h10 : 10 ≤ e := by omega
  have h1 : 1 ≤ Nat.log 10 e := by
    have := Nat.pow_le_iff_le_log (b := 10) (x := 1) (y := e) (by norm_num) (by omega)
    exact this.mp (by simpa using h10)
  omega

theorem numDigits_pos (e : Nat) : 1 ≤ numDigits e := by
  rw [numDigits_eq_log]; omega

theorem lt_pow_numDigits (e : Nat) : e < 10 ^ numDigits e := by
  rw [numDigits_eq_log]
  exact Nat.lt_pow_succ_log_self (by norm_num) e

/-- The loop on a non-negative encoding: it appends the decimal digits of `e`, least
significant first, and stops after `numberOfDevices - i` rounds (at least one) or when
the digits are used up. -/
theorem devicesLoop_nat (e : Nat) : ∀ (i n : Nat) (acc : List Int), n < 2 ^ 32 → i + 1 < 2 ^ 32 →
    devicesLoop (e : Int) i n acc
      = acc ++ (List.range (min (max (n - i) 1) (numDigits e))).map (digitAt e) := by
  induction e using Nat.strong_induction_on with
  | _ e ih =>
    intro i n acc hn hi
    rw [devicesLoop]
    have hmod : (i + 1) % 2 ^ 32 = i + 1 := Nat.mod_eq_of_lt hi
    have hdiv : (e : Int).tdiv 10 = ((e / 10 : Nat) : Int) := (Int.ofNat_tdiv e 10).symm
    have hrem : (e : Int).tmod 10 = ((e % 10 : Nat) : Int) := (Int.ofNat_tmod e 10).symm
    simp only [hmod, hdiv, hrem]
    by_cases hc : i + 1 < n ∧ ((e / 10 : Nat) : Int) ≠ 0
    · rw [if_pos hc]
      have he10 : e / 10 ≠ 0 := by
        intro h0; apply hc.2; simp [h0]
      have hlt : e / 10 < e := by omega
      rw [ih (e / 10) hlt (i + 1) n _ hn (by omega)]
      have hlen : min (max (n - i) 1) (numDigits e)
          = min (max (n - (i + 1)) 1) (numDigits (e / 10)) + 1 := by
        rw [numDigits_div_ten e he10]; omega
      rw [hlen, List.range_succ_eq_map, List.map_cons, List.map_map, List.append_assoc]
      congr 1
      simp only [List.singleton_append, digitAt, pow_zero, Nat.div_one]
      congr 1
      apply List.map_congr_left
      intro k _
      simp only [Function.comp, digitAt, Nat.succ_eq_add_one, pow_succ, Nat.div_div_eq_div_mul]
      rw [Nat.mul_comm]
    · rw [if_neg hc]
      have hlen : min (max (n - i) 1) (numDigits e) = 1 := by
        have hp := numDigits_pos e
        by_cases h1 : i + 1 < n
        · have : e / 10 = 0 := by
            by_contra h0; apply hc; refine ⟨h1, ?_⟩; exact_mod_cast h0
          rw [numDigits_lt_ten e this]; omega
        · omega
      rw [hlen]
      simp [digitAt, List.range_succ]

theorem toInt32_of_lt (e : Nat) (he : e < 2 ^ 31) : toInt32 e = (e : Int) := by
  unfold toInt32
  have h : e % 2 ^ 32 = e := Nat.mod_eq_of_lt (by omega)
  rw [h, if_pos he]

theorem selectDevices_eq (e n : Nat) (he : e < 2 ^ 31) (hn : n < 2 ^ 32) :
    selectDevices e n = (List.range (min (max n 1) (numDigits e))).map (digitAt e) := by
  unfold selectDevices
  rw [toInt32_of_lt e he, devicesLoop_nat e 0 n [] hn (by norm_num)]
  simp

theorem sum_digitAt (e : Nat) (d : Nat) :
    ∑ k in Finset.range d, digitAt e k * 10 ^ k = ((e % 10 ^ d : Nat) : Int) := by
  induction d with
  | zero => simp [Nat.mod_one]
  | succ d ih =>
    rw [Finset.sum_range_succ, ih, Nat.mod_pow_succ]
    simp only [digitAt]
    push_cast
    ring

/-- C1. For an encoding `e < 2^31` and a device count `n` (an `unsigned int`), entry `k`
of the list passed to `setDevices` is `(e / 10^k) mod 10`, every entry lies between 0 and
9, and when `n` is at least the number of decimal digits of `e` the sum of
`devices[k] * 10^k` gives `e` back. -/
theorem C1_devices_are_decimal_digits (e n : Nat) (he : e < 2 ^ 31) (hn : n < 2 ^ 32) :
    (∀ k, k < (selectDevices e n).length →
        (selectDevices e n)[k]? = some ((e : Int) / 10 ^ k % 10)) ∧
    (∀ d ∈ selectDevices e n, 0 ≤ d ∧ d ≤ 9) ∧
    (numDigits e ≤ n →
        ∑ k in Finset.range (selectDevices e n).length, (selectDevices e n).getD k 0 * 10 ^ k
          = (e : Int)) := by
  rw [selectDevices_eq e n he hn]
  refine ⟨?_, ?_, ?_⟩
  · intro k hk
    simp only [List.length_map, List.length_range] at hk
    simp only [List.getElem?_map, List.getElem?_range hk, Option.map_some', digitAt]
    push_cast
    rfl
  · intro d hd
    simp only [List.mem_map, List.mem_range, digitAt] at hd
    obtain ⟨k, _, rfl⟩ := hd
    omega
  · intro hd
    have hlen : min (max n 1) (numDigits e) = numDigits e := by omega
    simp only [List.length_map, List.length_range, hlen]
    have hsum := sum_digitAt e (numDigits e)
    rw [Nat.mod_eq_of_lt (lt_pow_numDigits e)] at hsum
    rw [← hsum]
    apply Finset.sum_congr rfl
    intro k hk
    rw [Finset.mem_range] at hk
    simp [List.getD, List.getElem?_map, List.getElem?_range hk]

/-- Witness of C1: encoding 3210 on four devices. -/
theorem C1_devices_are_decimal_digits_witness :
    (3210 < 2 ^ 31 ∧ 4 < 2 ^ 32) ∧
    ((∀ k, k < (selectDevices 3210 4).length →
        (selectDevices 3210 4)[k]? = some (((3210 : Nat) : Int) / 10 ^ k % 10)) ∧
    (∀ d ∈ selectDevices 3210 4, 0 ≤ d ∧ d ≤ 9) ∧
    (numDigits 3210 ≤ 4 →
        ∑ k in Finset.range (selectDevices 3210 4).length, (selectDevices 3210 4).getD k 0 * 10 ^ k
          = ((3210 : Nat) : Int))) :=
  ⟨by decide, C1_devices_are_decimal_digits 3210 4 (by decide) (by decide)⟩

/-- C2. In state `GUI_STATE_NONE`: when the GUI wants the mouse the state stays
`GUI_STATE_NONE` and no camera call is made; otherwise the next state is orbit if the
left button is down, else dolly if the right one is, else pan if the middle one is, else
none, and every transition into a drag state calls `setBaseCoordinates` with the integer
mouse coordinates. -/
theorem C2_transitions_out_of_idle (app : Application) (io : GuiInput)
    (h : app.m_guiState = .GUI_STATE_NONE) :
    (io.WantCaptureMouse = true →
      (guiEventHandler app io).1.m_guiState = .GUI_STATE_NONE ∧ (guiEventHandler app io).2 = []) ∧
    (io.WantCaptureMouse = false →
      (guiEventHandler app io).1.m_guiState =
        (if io.IsMouseDown 0 then .GUI_STATE_ORBIT
         else if io.IsMouseDown 1 then .GUI_STATE_DOLLY
         else if io.IsMouseDown 2 then .GUI_STATE_PAN
         else .GUI_STATE_NONE) ∧
      ((guiEventHandler app io).1.m_guiState ≠ .GUI_STATE_NONE →
        (guiEventHandler app io).2 =
          [.setBaseCoordinates (F32.toInt io.GetMousePos.x) (F32.toInt io.GetMousePos.y)])) := by
  have hs : (if io.IsKeyPressedSpace = true then
      { app with m_isWindowVisible := !app.m_isWindowVisible } else app).m_guiState
        = .GUI_STATE_NONE := by
    split <;> simp [h]
  unfold guiEventHandler
  simp only [hs]
  refine ⟨?_, ?_⟩
  · intro hw
    simp [hw, hs]
  · intro hw
    simp only [hw]
    cases io.IsMouseDown 0 <;> cases io.IsMouseDown 1 <;> cases io.IsMouseDown 2 <;>
      cases io.MouseWheel.neZero <;> simp [hs]


/-- Witness of C2: from idle, the right button starts a dolly at (100, 200). -/
theorem C2_transitions_out_of_idle_witness :
    rawApp.m_guiState = .GUI_STATE_NONE ∧
    (guiEventHandler rawApp rightDown).1.m_guiState = .GUI_STATE_DOLLY ∧
    (guiEventHandler rawApp rightDown).2 = [.setBaseCoordinates 100 200] := by
  have h := (C2_transitions_out_of_idle rawApp rightDown rfl).2 rfl
  refine ⟨rfl, ?_, ?_⟩
  · exact h.1
  · rw [h.2 (by rw [h.1]; decide)]
    decide

/-- C3. In every state reached by a sequence of `guiEventHandler` calls, a drag state
(orbit, dolly, pan) is left only for `GUI_STATE_NONE` and only in a step in which its own
button (left, right, middle) is reported released, and then no camera call is made; in
every other step the state is unchanged and exactly the matching camera operation is
called with the integer mouse coordinates. No step leads from one drag state to another,
whatever the other buttons and `WantCaptureMouse` say. -/
theorem C3_drag_states (start : Application) (history : List GuiInput) (io : GuiInput)
    (button : Nat) (hdrag : dragButton (guiRun start history).m_guiState = some button) :
    (io.IsMouseReleased button = true →
      (guiEventHandler (guiRun start history) io).1.m_guiState = .GUI_STATE_NONE ∧
      (guiEventHandler (guiRun start history) io).2 = []) ∧
    (io.IsMouseReleased button = false →
      (guiEventHandler (guiRun start history) io).1.m_guiState
        = (guiRun start history).m_guiState ∧
      (guiEventHandler (guiRun start history) io).2.map some =
        [dragCall (guiRun start history).m_guiState
          (F32.toInt io.GetMousePos.x) (F32.toInt io.GetMousePos.y)]) ∧
    ((guiEventHandler (guiRun start history) io).1.m_guiState
        ≠ (guiRun start history).m_guiState →
      (guiEventHandler (guiRun start history) io).1.m_guiState = .GUI_STATE_NONE ∧
      io.IsMouseReleased button = true) := by
  generalize guiRun start history = app at hdrag ⊢
  cases hg : app.m_guiState <;> rw [hg] at hdrag <;> simp only [dragButton] at hdrag <;>
    cases hdrag <;> cases hk : io.IsKeyPressedSpace <;> cases hr : io.IsMouseReleased _ <;>
    simp [guiEventHandler, hk, hg, hr, dragCall]

/-- Witness of C3: a dolly started with the right button ends in `GUI_STATE_NONE` when
the right button is released, although the left button is pressed in the same step. -/
theorem C3_drag_states_witness :
    dragButton (guiRun rawApp [rightDown]).m_guiState = some 1 ∧
    (guiEventHandler (guiRun rawApp [rightDown]) leftDownRightReleased).1.m_guiState
      = .GUI_STATE_NONE ∧
    (guiEventHandler (guiRun rawApp [rightDown]) leftDown).2.map some
      = [some (.dolly 100 200)] := by
  have h := C3_drag_states rawApp [rightDown] leftDownRightReleased 1 (by decide)
  have h2 := C3_drag_states rawApp [rightDown] leftDown 1 (by decide)
  refine ⟨by decide, (h.1 (by decide)).1, ?_⟩
  rw [(h2.2.1 (by decide)).2]
  decide

/-! ## Sequences of calls under failures -/

theorem update_id (r : Runtime) (h : Handle) : r.update h id = r := by
  cases r with
  | mk next objs =>
    simp only [Runtime.update, Runtime.mk.injEq, true_and]
    funext k
    split
    · next hk => subst hk; simp
    · rfl

theorem tryBlock_ok_iff (fails : Nat → Bool) (l : List Event) :
    ∀ site, (tryBlock fails site l).2 = true ↔ ∀ k < rtCount l, fails (site + k) = false := by
  induction l with
  | nil => intro site; simp [tryBlock, rtCount]
  | cons e rest ih =>
    intro site
    cases e with
    | rt c =>
      simp only [tryBlock, rtCount]
      by_cases h : fails site = true
      · simp only [h, if_true, Bool.false_eq_true, false_iff, not_forall]
        exact ⟨0, by omega, by simp [h]⟩
      · simp only [h, if_false, Bool.false_eq_true, ih (site + 1)]
        constructor
        · intro hall k hk
          cases k with
          | zero => simpa using h
          | succ j =>
            have := hall j (by omega)
            rwa [Nat.add_assoc, Nat.add_comm 1 j] at this
        · intro hall k hk
          have := hall (k + 1) (by omega)
          rwa [Nat.add_assoc, Nat.add_comm 1 k]
    | gl c => simpa [tryBlock, rtCount] using ih site
    | rtFailed c => simpa [tryBlock, rtCount] using ih site
    | camera c => simpa [tryBlock, rtCount] using ih site
    | cerr c => simpa [tryBlock, rtCount] using ih site

theorem tryBlock_ok_trace (fails : Nat → Bool) (l : List Event) :
    ∀ site, (tryBlock fails site l).2 = true → (tryBlock fails site l).1 = l := by
  induction l with
  | nil => intro site; simp [tryBlock]
  | cons e rest ih =>
    intro site
    cases e with
    | rt c =>
      simp only [tryBlock]
      split
      · simp
      · intro h; simp [ih (site + 1) h]
    | gl c => intro h; simp only [tryBlock] at h ⊢; simp [ih site h]
    | rtFailed c => intro h; simp only [tryBlock] at h ⊢; simp [ih site h]
    | camera c => intro h; simp only [tryBlock] at h ⊢; simp [ih site h]
    | cerr c => intro h; simp only [tryBlock] at h ⊢; simp [ih site h]

theorem tryBlock_failed (fails : Nat → Bool) (l : List Event) (hl : l.any isFailed = false) :
    ∀ site, (tryBlock fails site l).1.any isFailed = !(tryBlock fails site l).2 := by
  induction l with
  | nil => intro site; simp [tryBlock]
  | cons e rest ih =>
    intro site
    simp only [List.any_cons, Bool.or_eq_false_iff] at hl
    cases e with
    | rt c =>
      simp only [tryBlock]
      split
      · simp [isFailed]
      · simp [isFailed, ih hl.2 (site + 1)]
    | gl c => simp [tryBlock, isFailed, ih hl.2 site]
    | rtFailed c => simp [isFailed] at hl
    | camera c => simp [tryBlock, isFailed, ih hl.2 site]
    | cerr c => simp [tryBlock, isFailed, ih hl.2 site]

theorem tryBlock_mem (fails : Nat → Bool) (l : List Event) :
    ∀ site, ∀ e ∈ (tryBlock fails site l).1,
      e ∈ l ∨ (∃ c, e = .rtFailed c ∧ .rt c ∈ l) ∨ ∃ k, e = .cerr (.errorString k) := by
  induction l with
  | nil => intro site e he; simp [tryBlock] at he
  | cons a rest ih =>
    intro site e he
    have step : ∀ site, e ∈ a :: (tryBlock fails site rest).1 →
        e ∈ a :: rest ∨ (∃ c, e = .rtFailed c ∧ .rt c ∈ a :: rest) ∨
          ∃ k, e = .cerr (.errorString k) := by
      intro site he
      rcases List.mem_cons.mp he with h | h
      · exact Or.inl (by simp [h])
      · rcases ih site e h with h1 | ⟨c, h1, h2⟩ | h1
        · exact Or.inl (List.mem_cons_of_mem _ h1)
        · exact Or.inr (Or.inl ⟨c, h1, List.mem_cons_of_mem _ h2⟩)
        · exact Or.inr (Or.inr h1)
    cases a with
    | rt c =>
      simp only [tryBlock] at he
      split at he
      · simp only [List.mem_cons, List.mem_singleton, List.not_mem_nil, or_false] at he
        rcases he with h | h
        · exact Or.inr (Or.inl ⟨c, h, by simp⟩)
        · exact Or.inr (Or.inr ⟨site, h⟩)
      · exact step _ he
    | gl c => exact step site (by simpa only [tryBlock] using he)
    | rtFailed c => exact step site (by simpa only [tryBlock] using he)
    | camera c => exact step site (by simpa only [tryBlock] using he)
    | cerr c => exact step site (by simpa only [tryBlock] using he)

theorem tryBlock_raised (fails : Nat → Bool) (l : List Event) :
    ∀ site, (tryBlock fails site l).2 = false →
      ∃ pre c k, (tryBlock fails site l).1 = pre ++ [.rtFailed c, .cerr (.errorString k)] ∧
        fails k = true := by
  induction l with
  | nil => intro site h; simp [tryBlock] at h
  | cons e rest ih =>
    intro site
    have step : ∀ site, (tryBlock fails site rest).2 = false →
        ∃ pre c k, e :: (tryBlock fails site rest).1
            = pre ++ [.rtFailed c, .cerr (.errorString k)] ∧ fails k = true := by
      intro site h
      obtain ⟨pre, c, k, h1, h2⟩ := ih site h
      exact ⟨e :: pre, c, k, by rw [h1]; rfl, h2⟩
    cases e with
    | rt c =>
      simp only [tryBlock]
      split
      · next hf => intro _; exact ⟨[], c, site, rfl, hf⟩
      · exact step (site + 1)
    | gl c => simpa only [tryBlock] using step site
    | rtFailed c => simpa only [tryBlock] using step site
    | camera c => simpa only [tryBlock] using step site
    | cerr c => simpa only [tryBlock] using step site

set_option maxHeartbeats 4000000 in
/-- The trace and the result of `render` on an existing context and output buffer. -/
theorem render_run (s : Sys) (frustum : Frustum) (context buffer : Handle)
    (hc : s.app.m_context = some context) (hb : s.app.m_bufferOutput = some buffer) :
    (render frustum s).2.trace = s.trace ++
      (tryBlock s.fails s.rtCalls (renderCalls s.app frustum context buffer
        (((s.runtime.objs buffer).map (fun o => o.glbo)).getD 0))).1 ∧
    (render frustum s).1 = .ok (tryBlock s.fails s.rtCalls (renderCalls s.app frustum context
        buffer (((s.runtime.objs buffer).map (fun o => o.glbo)).getD 0))).2 := by
  cases hcc : frustum.cameraChanged <;> cases hi : s.app.m_interop <;>
    simp only [render, setContextFloat3, bind_run, getApp_run, camera_run, hc, hb, hcc, hi, method_run,
      query_run, gl_run, pure_run, tryCatch_run, logError_run, if_true, if_false, Bool.false_eq_true,
      update_id] <;>
    (repeat' (split_ifs <;> simp only [method_run, query_run, gl_run, pure_run, bind_run,
      logError_run, hc, hb, update_id])) <;>
    simp [renderCalls, tryBlock, hcc, hi, *]

/-- C5 at the failing inputs: on the constructed application, a runtime failure inside
`screenshot` and a runtime failure inside the destructor leave the operation as an
`optix::Exception`. -/
theorem C5_screenshot_and_destructor_propagate :
    (screenshot "shot.ppm" { readySys with fails := fun _ => true }).1
      = .raised (.optix 111) ∧
    readySys.app.m_isValid = true ∧
    (destruct { readySys with fails := fun _ => true }).1 = .raised (.optix 111) := by
  decide!

theorem catches_tryCatch {α : Type} (body : Rt α) (handler : Nat → Rt α)
    (h : ∀ site, Catches (handler site)) : Catches (tryCatch body handler) := by
  intro s site
  simp only [tryCatch_run]
  split
  · simp
  · exact h _ _ _
  · simp

theorem catches_bind {α β : Type} (x : Rt α) (f : α → Rt β)
    (hx : Catches x) (hf : ∀ a, Catches (f a)) : Catches (x >>= f) := by
  intro s site
  simp only [bind_run]
  split
  · exact hf _ _ _
  · next e s1 heq =>
    intro h
    apply hx s site
    rw [heq]
    simp only [Res.raised.injEq] at h ⊢
    exact h

theorem catches_logError (site : Nat) : Catches (logError site) := by
  intro s k; simp

theorem catches_modifyApp (f : Application → Application) : Catches (modifyApp f) := by
  intro s k; simp

theorem catches_emit (e : Event) : Catches (emit e) := by
  intro s k; simp

/-- The operations that wrap their runtime calls in `try`/`catch`: whatever the state, no
`optix::Exception` leaves `initOptiX`, `initPrograms`, `initRenderer`, `initScene`,
`initMaterials`, `createScene`, `createGeometry`, `reshape` or `render`. -/
theorem handlers_catch :
    Catches initOptiX ∧ Catches initPrograms ∧ Catches initRenderer ∧ Catches initScene ∧
    Catches initMaterials ∧ Catches createScene ∧ (∀ mesh, Catches (createGeometry mesh)) ∧
    (∀ w h, Catches (reshape w h)) ∧ (∀ f, Catches (render f)) := by
  have hm : Catches initMaterials := catches_tryCatch _ _ catches_logError
  have hg : ∀ s : Sys, ∀ k, (getApp s).1 ≠ .raised (.optix k) := by intro s k; simp
  have hcfg : ∀ s : Sys, ∀ k, (getCfg s).1 ≠ .raised (.optix k) := by intro s k; simp
  have hpure : ∀ {α : Type} (a : α), Catches (pure a : Rt α) := by intro α a s k; simp
  refine ⟨catches_tryCatch _ _ catches_logError, catches_tryCatch _ _ catches_logError,
    catches_tryCatch _ _ catches_logError, catches_tryCatch _ _ catches_logError, hm,
    ?_, ?_, ?_, ?_⟩
  · exact catches_bind _ _ hm (fun _ => catches_tryCatch _ _ catches_logError)
  · intro mesh
    unfold createGeometry
    refine catches_bind _ _ hg (fun app => ?_)
    refine catches_bind _ _ hcfg (fun cfg => ?_)
    refine catches_bind _ _ (catches_tryCatch _ _ (fun site => ?_)) (fun geometry => ?_)
    · exact catches_bind _ _ (catches_logError site) (fun _ => hpure _)
    · cases geometry with
      | none => exact hpure _
      | some g =>
        exact catches_bind _ _ (catches_tryCatch _ _ catches_logError) (fun _ => hpure _)
  · intro w h
    unfold reshape
    refine catches_bind _ _ hg (fun app => ?_)
    split
    · refine catches_bind _ _ (catches_modifyApp _) (fun _ => ?_)
      refine catches_bind _ _ hg (fun app => ?_)
      refine catches_bind _ _ (catches_emit _) (fun _ => ?_)
      refine catches_bind _ _ (catches_tryCatch _ _ catches_logError) (fun _ => ?_)
      exact catches_emit _
    · exact hpure _
  · intro f
    refine catches_tryCatch _ _ (fun site => ?_)
    exact catches_bind _ _ (catches_logError site) (fun _ => hpure _)

/-- C6 at the failing input: in the run of the constructor in which only the dummy
launch of `initScene` fails, the exception is logged by the handler of `initScene` and
`initOptiX` goes on to set `m_isValid`, which was false before. -/
theorem C6_valid_although_launch_failed :
    rawApp.m_isValid = false ∧
    isValid (construct 640 480 0 1024 true (rawSys launchFails)).2.app = true ∧
    Event.rtFailed ⟨.launch, some 0, [.nat 0, .int 0, .int 0]⟩
      ∈ (construct 640 480 0 1024 true (rawSys launchFails)).2.trace ∧
    Event.cerr (.errorString 110)
      ∈ (construct 640 480 0 1024 true (rawSys launchFails)).2.trace := by
  decide!
set_option maxHeartbeats 40000000 in
/-- C7. When no runtime call fails (and the context and the programs are in place),
`createScene` completes and, with `n` the first handle it is given: the root group `n+2`
is stored in `m_rootGroup` and set as `sysTopObject`; it has exactly two children, the
transform `n+9` with the plane's matrix over the geometry group `n+8` and the transform
`n+16` with the sphere's matrix over the geometry group `n+15`; each geometry group has
exactly one child, the geometry instance `n+6` of the plane's geometry `n+3` and the
geometry instance `n+14` of the sphere's geometry `n+10`; each instance has exactly one
material, the opaque material `n` for both. A group has no children when the runtime
creates it. -/
theorem C7_scene_assembly (s : Sys) (context p1 p2 p3 : Handle)
    (hfails : ∀ k, s.fails k = false)
    (hctx : s.app.m_context = some context)
    (hlt : context < s.runtime.next)
    (hp1 : s.app.m_mapOfPrograms.lookup "closesthit" = some p1)
    (hp2 : s.app.m_mapOfPrograms.lookup "boundingbox_triangle_indexed" = some p2)
    (hp3 : s.app.m_mapOfPrograms.lookup "intersection_triangle_indexed" = some p3)
    (hsize : s.cfg.sizeofVertexAttributes = 48) :
    (createScene s).1 = .ok () ∧
    (createScene s).2.app.m_opaqueMaterial = some s.runtime.next ∧
    (createScene s).2.app.m_rootGroup = some (s.runtime.next + 2) ∧
    Event.rt ⟨.setVariable, some context, [.str "sysTopObject", .obj (some (s.runtime.next + 2))]⟩
      ∈ (createScene s).2.trace ∧
    (createScene s).2.runtime.objs (s.runtime.next + 2) =
      some { kind := .group, acceleration := some (s.runtime.next + 1),
             children := [some (s.runtime.next + 9), some (s.runtime.next + 16)] } ∧
    (createScene s).2.runtime.objs (s.runtime.next + 9) =
      some { kind := .transform, children := [some (s.runtime.next + 8)],
             matrix := trafoPlane } ∧
    (createScene s).2.runtime.objs (s.runtime.next + 16) =
      some { kind := .transform, children := [some (s.runtime.next + 15)],
             matrix := trafoSphere } ∧
    (createScene s).2.runtime.objs (s.runtime.next + 8) =
      some { kind := .geometryGroup, acceleration := some (s.runtime.next + 7),
             children := [some (s.runtime.next + 6)] } ∧
    (createScene s).2.runtime.objs (s.runtime.next + 15) =
      some { kind := .geometryGroup, acceleration := some (s.runtime.next + 13),
             children := [some (s.runtime.next + 14)] } ∧
    (createScene s).2.runtime.objs (s.runtime.next + 6) =
      some { kind := .geometryInstance, geometry := some (s.runtime.next + 3),
             materials := [some s.runtime.next] } ∧
    (createScene s).2.runtime.objs (s.runtime.next + 14) =
      some { kind := .geometryInstance, geometry := some (s.runtime.next + 10),
             materials := [some s.runtime.next] } ∧
    ((createScene s).2.runtime.objs (s.runtime.next + 3)).map
        (fun o => (o.kind, o.primitiveCount))
      = some (.geometry, s.cfg.plane.indices % 2 ^ 32 / 3) ∧
    ((createScene s).2.runtime.objs (s.runtime.next + 10)).map
        (fun o => (o.kind, o.primitiveCount))
      = some (.geometry, s.cfg.sphere.indices % 2 ^ 32 / 3) ∧
    ((createScene s).2.runtime.objs s.runtime.next).map (fun o => o.kind) = some .material := by
  have hne : ∀ k : Nat, ¬ (s.runtime.next + k = context) := by
    intro k h
    rw [← h] at hlt
    exact absurd hlt (Nat.not_lt.mpr (Nat.le_add_right _ _))
  have hne0 : ¬ (s.runtime.next = context) := by
    intro h
    rw [← h] at hlt
    exact absurd hlt (Nat.lt_irrefl _)
  by_cases hb : s.app.m_builder = "Trbvh" ∨ s.app.m_builder = "Sbvh" <;>
  simp [createScene, initMaterials, createGeometry, createPlane, createSphere, createInstance,
    createGeometryGroup, addTransformed, createAcceleration, setAccelerationProperties,
    setAcceleration, setChildCount, setChild, getChildCount, setProperty,
    setProgram, setObjectVariable, hfails, hctx, hp1, hp2, hp3, hsize, Runtime.alloc,
    Runtime.update, rtCall, resize, hne, hne0, hb, Nat.add_assoc]

/-- Witness of C7: the scene built from a context with the six programs loaded; the
material is object 7, the root group object 9 with the transforms 16 and 23 as its
children. -/
theorem C7_scene_assembly_witness :
    (∀ k, sceneSys.fails k = false) ∧ sceneSys.app.m_context = some 0 ∧
    (createScene sceneSys).1 = .ok () ∧
    (createScene sceneSys).2.app.m_rootGroup = some 9 ∧
    (createScene sceneSys).2.runtime.objs 9 =
      some { kind := .group, acceleration := some 8, children := [some 16, some 23] } := by
  have h := C7_scene_assembly sceneSys 0 6 4 5 (fun _ => rfl) rfl (by decide) (by decide)
    (by decide) (by decide) rfl
  exact ⟨fun _ => rfl, rfl, h.1, h.2.2.1, h.2.2.2.2.1⟩

set_option maxHeartbeats 1000000 in
/-- C8, amended. With a context and an output buffer in place, `render` queries the
camera and then issues, in this order, the four camera variables (only when the camera
reports a changed frustum), the launch with the dimensions `(m_width, m_height)` and the
transfer of the output buffer to the texture. It returns `true` exactly when none of
these runtime calls fails, and then has issued the whole sequence; it returns `false`
exactly when one of them fails, and then has stopped at that call and written the error
string. -/
theorem C8_render_result (s : Sys) (frustum : Frustum) (context buffer : Handle)
    (hc : s.app.m_context = some context) (hb : s.app.m_bufferOutput = some buffer) :
    ∃ t calls, (render frustum s).2.trace = s.trace ++ t ∧
      calls = renderCalls s.app frustum context buffer
        (((s.runtime.objs buffer).map (fun o => o.glbo)).getD 0) ∧
      t = (tryBlock s.fails s.rtCalls calls).1 ∧
      (render frustum s).1 = .ok (tryBlock s.fails s.rtCalls calls).2 ∧
      ((render frustum s).1 = .ok true ∨ (render frustum s).1 = .ok false) ∧
      ((render frustum s).1 = .ok true ↔
        ∀ k < (if frustum.cameraChanged then 4 else 0) + 1 + (if s.app.m_interop then 1 else 2),
          s.fails (s.rtCalls + k) = false) ∧
      ((render frustum s).1 = .ok false ↔
        ∃ k < (if frustum.cameraChanged then 4 else 0) + 1 + (if s.app.m_interop then 1 else 2),
          s.fails (s.rtCalls + k) = true) ∧
      ((render frustum s).1 = .ok true ↔ t.any isFailed = false) ∧
      ((render frustum s).1 = .ok true → t = calls) ∧
      ((render frustum s).1 = .ok false →
        ∃ pre c k, t = pre ++ [.rtFailed c, .cerr (.errorString k)] ∧ s.fails k = true) ∧
      t.head? = some (.camera .getFrustum) ∧
      (∀ e ∈ t, isCall .launch context e = true →
        e = .rt ⟨.launch, some context, [.nat 0, .int s.app.m_width, .int s.app.m_height]⟩ ∨
        e = .rtFailed ⟨.launch, some context, [.nat 0, .int s.app.m_width, .int s.app.m_height]⟩) ∧
      ((render frustum s).1 = .ok true →
        .rt ⟨.launch, some context, [.nat 0, .int s.app.m_width, .int s.app.m_height]⟩ ∈ t) ∧
      (frustum.cameraChanged = false → ∀ e ∈ t, isCall .setVariable context e = false) := by
  obtain ⟨htrace, hres⟩ := render_run s frustum context buffer hc hb
  have hclean : ∀ g, (renderCalls s.app frustum context buffer g).any isFailed = false := by
    intro g
    cases hcc : frustum.cameraChanged <;> cases hi : s.app.m_interop <;>
      simp [renderCalls, hcc, hi, isFailed]
  have hcount : ∀ g, rtCount (renderCalls s.app frustum context buffer g) =
      (if frustum.cameraChanged then 4 else 0) + 1 + (if s.app.m_interop then 1 else 2) := by
    intro g
    cases hcc : frustum.cameraChanged <;> cases hi : s.app.m_interop <;>
      simp [renderCalls, hcc, hi, rtCount]
  have hok := tryBlock_ok_iff s.fails (renderCalls s.app frustum context buffer
    (((s.runtime.objs buffer).map (fun o => o.glbo)).getD 0)) s.rtCalls
  rw [hcount] at hok
  have hmem := tryBlock_mem s.fails (renderCalls s.app frustum context buffer
    (((s.runtime.objs buffer).map (fun o => o.glbo)).getD 0)) s.rtCalls
  have hfull := tryBlock_ok_trace s.fails (renderCalls s.app frustum context buffer
    (((s.runtime.objs buffer).map (fun o => o.glbo)).getD 0)) s.rtCalls
  refine ⟨_, _, htrace, rfl, rfl, hres, ?_, ?_, ?_, ?_, ?_, ?_, ?_, ?_, ?_, ?_⟩
  · rw [hres]
    cases (tryBlock s.fails s.rtCalls (renderCalls s.app frustum context buffer
        (((s.runtime.objs buffer).map (fun o => o.glbo)).getD 0))).2
    · exact Or.inr rfl
    · exact Or.inl rfl
  · rw [hres, ← hok]; simp
  · rw [hres]
    constructor
    · intro h
      by_contra hno
      have : (tryBlock s.fails s.rtCalls (renderCalls s.app frustum context buffer
          (((s.runtime.objs buffer).map (fun o => o.glbo)).getD 0))).2 = true := by
        rw [hok]
        intro k hk
        by_contra hk2
        exact hno ⟨k, hk, by simpa using hk2⟩
      simp [this] at h
    · rintro ⟨k, hk, hf⟩
      cases hb2 : (tryBlock s.fails s.rtCalls (renderCalls s.app frustum context buffer
          (((s.runtime.objs buffer).map (fun o => o.glbo)).getD 0))).2
      · rfl
      · rw [hok] at hb2
        simp [hb2 k hk] at hf
  · rw [hres, tryBlock_failed s.fails _ (hclean _)]; simp
  · rw [hres]
    intro h
    exact hfull (by simpa using h)
  · rw [hres]
    intro h
    exact tryBlock_raised s.fails _ s.rtCalls (by simpa using h)
  · cases hcc : frustum.cameraChanged <;> simp [renderCalls, tryBlock, hcc]
  · intro e he hlaunch
    have hall : ∀ x ∈ renderCalls s.app frustum context buffer
        (((s.runtime.objs buffer).map (fun o => o.glbo)).getD 0),
        isCall .launch context x = true →
          x = .rt ⟨.launch, some context, [.nat 0, .int s.app.m_width, .int s.app.m_height]⟩ := by
      cases hcc : frustum.cameraChanged <;> cases hi : s.app.m_interop <;>
        simp [renderCalls, hcc, hi, isCall]
    rcases hmem e he with h | ⟨c, h1, h2⟩ | ⟨k, h⟩
    · exact Or.inl (hall e h hlaunch)
    · subst h1
      have hc2 := hall (.rt c) h2 hlaunch
      simp only [Event.rt.injEq] at hc2
      exact Or.inr (by rw [hc2])
    · subst h
      simp [isCall] at hlaunch
  · rw [hres]
    intro h
    rw [hfull (by simpa using h)]
    cases hcc : frustum.cameraChanged <;> cases hi : s.app.m_interop <;>
      simp [renderCalls, hcc, hi]
  · intro hcc e he
    have hall : ∀ x ∈ renderCalls s.app frustum context buffer
        (((s.runtime.objs buffer).map (fun o => o.glbo)).getD 0),
        isCall .setVariable context x = false := by
      cases hi : s.app.m_interop <;> simp [renderCalls, hcc, hi, isCall]
    rcases hmem e he with h | ⟨c, h1, h2⟩ | ⟨k, h⟩
    · exact hall e h
    · subst h1
      exact hall (.rt c) h2
    · subst h
      rfl

/-- Witness of C8, amended: a frame of the constructed application with an unchanged
camera. -/
theorem C8_render_result_witness :
    readySys.app.m_context = some 0 ∧ readySys.app.m_bufferOutput = some 7 ∧
    ∃ t calls, (render unchangedFrustum readySys).2.trace = readySys.trace ++ t ∧
      calls = renderCalls readySys.app unchangedFrustum 0 7
        (((readySys.runtime.objs 7).map (fun o => o.glbo)).getD 0) ∧
      t = (tryBlock readySys.fails readySys.rtCalls calls).1 ∧
      (render unchangedFrustum readySys).1
        = .ok (tryBlock readySys.fails readySys.rtCalls calls).2 ∧
      ((render unchangedFrustum readySys).1 = .ok true ∨
        (render unchangedFrustum readySys).1 = .ok false) ∧
      ((render unchangedFrustum readySys).1 = .ok true ↔
        ∀ k < (if unchangedFrustum.cameraChanged then 4 else 0) + 1 +
            (if readySys.app.m_interop then 1 else 2),
          readySys.fails (readySys.rtCalls + k) = false) ∧
      ((render unchangedFrustum readySys).1 = .ok false ↔
        ∃ k < (if unchangedFrustum.cameraChanged then 4 else 0) + 1 +
            (if readySys.app.m_interop then 1 else 2),
          readySys.fails (readySys.rtCalls + k) = true) ∧
      ((render unchangedFrustum readySys).1 = .ok true ↔ t.any isFailed = false) ∧
      ((render unchangedFrustum readySys).1 = .ok true → t = calls) ∧
      ((render unchangedFrustum readySys).1 = .ok false →
        ∃ pre c k, t = pre ++ [.rtFailed c, .cerr (.errorString k)] ∧
          readySys.fails k = true) ∧
      t.head? = some (.camera .getFrustum) ∧
      (∀ e ∈ t, isCall .launch 0 e = true →
        e = .rt ⟨.launch, some 0,
          [.nat 0, .int readySys.app.m_width, .int readySys.app.m_height]⟩ ∨
        e = .rtFailed ⟨.launch, some 0,
          [.nat 0, .int readySys.app.m_width, .int readySys.app.m_height]⟩) ∧
      ((render unchangedFrustum readySys).1 = .ok true →
        .rt ⟨.launch, some 0, [.nat 0, .int readySys.app.m_width, .int readySys.app.m_height]⟩
          ∈ t) ∧
      (unchangedFrustum.cameraChanged = false → ∀ e ∈ t, isCall .setVariable 0 e = false) :=
  ⟨by decide!, by decide!, C8_render_result readySys unchangedFrustum 0 7 (by decide!) (by decide!)⟩

/-- C8 as stated fails: not in every application state does `render` return `true` or
`false`. After a construction in which `initRenderer` failed, `m_isValid` is `true` and
there is no output buffer: none of the runtime calls of `render` fails, the camera update
and the launch complete, and the transfer dereferences the null handle of the buffer, so
that `render` returns neither `true` nor `false`. After a construction in which the
creation of the context failed, the launch dereferences the null handle of the
context. -/
theorem C8_render_without_handles :
    noBufferSys.app.m_isValid = true ∧ noBufferSys.app.m_context = some 0 ∧
    noBufferSys.app.m_interop = true ∧ noBufferSys.app.m_bufferOutput = none ∧
    (∀ k < 2, noBufferSys.fails (noBufferSys.rtCalls + k) = false) ∧
    (render unchangedFrustum noBufferSys).1 = .raised .undefined ∧
    emitted (render unchangedFrustum) noBufferSys =
      [.camera .getFrustum,
       .rt ⟨.launch, some 0, [.nat 0, .int 640, .int 480]⟩,
       .gl ⟨.glActiveTexture, [.str "GL_TEXTURE0"]⟩,
       .gl ⟨.glBindTexture, [.str "GL_TEXTURE_2D", .nat 1]⟩] ∧
    noContextSys.app.m_context = none ∧
    (∀ k < 2, noContextSys.fails (noContextSys.rtCalls + k) = false) ∧
    (render unchangedFrustum noContextSys).1 = .raised .undefined ∧
    emitted (render unchangedFrustum) noContextSys = [.camera .getFrustum] := by
  decide!

/-- C9. A call `reshape(width, height)` with `width` zero, or `height` zero, or both
equal to the current `m_width` and `m_height` returns with the whole state unchanged: no
member of the application is written and no graphics, runtime or camera call is
issued. -/
theorem C9_reshape_noop (s : Sys) (width height : Int)
    (h : width = 0 ∨ height = 0 ∨ (width = s.app.m_width ∧ height = s.app.m_height)) :
    reshape width height s = (.ok (), s) := by
  have hc : ¬ ((width ≠ 0 ∧ height ≠ 0) ∧
      (s.app.m_width ≠ width ∨ s.app.m_height ≠ height)) := by
    rintro ⟨⟨h1, h2⟩, h3⟩
    rcases h with h | h | ⟨h, h'⟩
    · exact h1 h
    · exact h2 h
    · rcases h3 with h3 | h3
      · exact h3 h.symm
      · exact h3 h'.symm
  simp only [reshape, bind_run, getApp_run, if_neg hc, pure_run]

/-- Witness of C9: a zero height leaves the constructed application and its trace as
they are. -/
theorem C9_reshape_noop_witness :
    ((800 : Int) = 0 ∨ (0 : Int) = 0 ∨ ((800 : Int) = readySys.app.m_width ∧
      (0 : Int) = readySys.app.m_height)) ∧
    reshape 800 0 readySys = (.ok (), readySys) :=
  ⟨Or.inr (Or.inl rfl), C9_reshape_noop readySys 800 0 (Or.inr (Or.inl rfl))⟩

/-- C10. For an encoding `e < 2^31` and a device count `n` (an `unsigned int`) the loop,
a total function, produces a list of length `min (max n 1) d` with `d` the number of
decimal digits of `e`; the list is never empty and never longer than `max n 1`. -/
theorem C10_devices_length (e n : Nat) (he : e < 2 ^ 31) (hn : n < 2 ^ 32) :
    (selectDevices e n).length = min (max n 1) (numDigits e) ∧
    selectDevices e n ≠ [] ∧
    (selectDevices e n).length ≤ max n 1 := by
  have hlen : (selectDevices e n).length = min (max n 1) (numDigits e) := by
    rw [selectDevices_eq e n he hn]; simp
  have hp := numDigits_pos e
  refine ⟨hlen, ?_, ?_⟩
  · intro h; rw [h] at hlen; simp at hlen; omega
  · omega

/-- Witness of C10: with no device at all, encoding 3210 still selects one device. -/
theorem C10_devices_length_witness :
    (3210 < 2 ^ 31 ∧ 0 < 2 ^ 32) ∧ (selectDevices 3210 0).length = 1 := by
  have h := (C10_devices_length 3210 0 (by decide) (by decide)).1
  refine ⟨by decide, ?_⟩
  rw [h]
  have hd : numDigits 3210 = 4 := by
    rw [numDigits_eq_log]
    have : Nat.log 10 3210 = 3 := by
      rw [Nat.log_eq_iff (by decide)]; decide
    rw [this]
  rw [hd]
  decide

/-! ## The builder name -/

theorem keeps_pure {α : Type} (a : α) : KeepsBuilder (pure a : Rt α) := fun _ => rfl

theorem keeps_Rt_pure {α : Type} (a : α) : KeepsBuilder (Rt.pure a) := fun _ => rfl

theorem keeps_raise {α : Type} (e : Exn) : KeepsBuilder (raise e : Rt α) := fun _ => rfl

theorem keeps_getApp : KeepsBuilder getApp := fun _ => rfl

theorem keeps_getCfg : KeepsBuilder getCfg := fun _ => rfl

theorem keeps_emit (e : Event) : KeepsBuilder (emit e) := fun _ => rfl

theorem keeps_gl (api : GlApi) (args : List Arg) : KeepsBuilder (gl api args) := fun _ => rfl

theorem keeps_camera (c : CameraCall) : KeepsBuilder (camera c) := fun _ => rfl

theorem keeps_logError (site : Nat) : KeepsBuilder (logError site) := fun _ => rfl

theorem keeps_bind {α β : Type} (x : Rt α) (f : α → Rt β)
    (hx : KeepsBuilder x) (hf : ∀ a, KeepsBuilder (f a)) : KeepsBuilder (x >>= f) := by
  intro s
  have h1 := hx s
  simp only [bind_run]
  split
  · next a s1 heq =>
    rw [heq] at h1
    rw [hf a s1]
    exact h1
  · next e s1 heq =>
    rw [heq] at h1
    exact h1

theorem keeps_tryCatch {α : Type} (body : Rt α) (handler : Nat → Rt α)
    (hb : KeepsBuilder body) (hh : ∀ site, KeepsBuilder (handler site)) :
    KeepsBuilder (tryCatch body handler) := by
  intro s
  have h1 := hb s
  simp only [tryCatch_run]
  split
  · next a s1 heq => rw [heq] at h1; exact h1
  · next site s1 heq => rw [heq] at h1; rw [hh site s1]; exact h1
  · next s1 heq => rw [heq] at h1; exact h1

theorem keeps_deref (h : Option Handle) : KeepsBuilder (deref h) := by
  intro s; cases h <;> rfl

theorem keeps_rtCall {α : Type} (api : Api) (target : Option Handle) (args : List Arg)
    (effect : Runtime → Option (α × Runtime)) : KeepsBuilder (rtCall api target args effect) := by
  intro s
  simp only [rtCall]
  split
  · rfl
  · split <;> rfl

theorem keeps_check (api : Api) (args : List Arg) :
    KeepsBuilder (RT_CHECK_ERROR_NO_CONTEXT api args) := by
  intro s
  simp only [RT_CHECK_ERROR_NO_CONTEXT]
  split
  · split <;> rfl
  · rfl

theorem keeps_modifyApp (f : Application → Application)
    (hf : ∀ a, (f a).m_builder = a.m_builder) : KeepsBuilder (modifyApp f) := by
  intro s; exact hf s.app

theorem keeps_create (api : Api) (target : Option Handle) (args : List Arg) (o : RtObject) :
    KeepsBuilder (create api target args o) :=
  keeps_bind _ _ (keeps_deref _) (fun _ => keeps_rtCall _ _ _ _)

theorem keeps_method (api : Api) (target : Option Handle) (args : List Arg)
    (f : RtObject → RtObject) : KeepsBuilder (method api target args f) :=
  keeps_bind _ _ (keeps_deref _) (fun _ => keeps_rtCall _ _ _ _)

theorem keeps_query {α : Type} (api : Api) (target : Option Handle) (args : List Arg)
    (f : RtObject → α) (dflt : α) : KeepsBuilder (query api target args f dflt) :=
  keeps_bind _ _ (keeps_deref _) (fun _ => keeps_rtCall _ _ _ _)

theorem keeps_setSlot (api : Api) (target : Option Handle) (index : Nat)
    (value : Option Handle) (get : RtObject → List (Option Handle))
    (set : RtObject → List (Option Handle) → RtObject) :
    KeepsBuilder (setSlot api target index value get set) :=
  keeps_bind _ _ (keeps_deref _) (fun _ => keeps_rtCall _ _ _ _)

theorem keeps_findProgram (key : String) : KeepsBuilder (findProgram key) := by
  intro s
  simp only [findProgram_run]
  split <;> rfl

theorem keeps_MY_ASSERT (cond : Bool) : KeepsBuilder (MY_ASSERT cond) := by
  intro s
  simp only [MY_ASSERT_run]
  split <;> rfl

theorem keeps_forEach {α : Type} (v : List α) (body : α → Rt Unit)
    (hb : ∀ a, KeepsBuilder (body a)) : KeepsBuilder (forEach v body) := by
  unfold forEach
  have key : ∀ (l : List α) (acc : Rt Unit), KeepsBuilder acc →
      KeepsBuilder (l.foldl (fun acc a => Rt.bind acc (fun _ => body a)) acc) := by
    intro l
    induction l with
    | nil => intro acc h; exact h
    | cons a rest ih =>
      intro acc h
      exact ih _ (keeps_bind acc (fun _ => body a) h (fun _ => hb a))
  exact key v _ (keeps_Rt_pure ())

theorem keeps_forUpTo (n : Nat) (body : Nat → Rt Unit)
    (hb : ∀ i, KeepsBuilder (body i)) : KeepsBuilder (forUpTo n body) :=
  keeps_forEach (List.range n) body hb

set_option maxHeartbeats 4000000 in
/-- Nothing the constructor calls writes `m_builder`. -/
theorem keeps_init : KeepsBuilder (initOpenGL >>= fun _ => initOptiX) := by
  unfold initOpenGL initOptiX getSystemInformation getDeviceCount initPrograms loadProgram
    initRenderer initScene createScene initMaterials createPlane createSphere createGeometry
    createInstance createGeometryGroup addTransformed createAcceleration
    setAccelerationProperties setProperty setAcceleration setChildCount setChild getChildCount
    setContextFloat3 setObjectVariable setProgram
  repeat' (first
    | with_reducible exact keeps_pure _ | with_reducible exact keeps_getApp
    | with_reducible exact keeps_getCfg | with_reducible exact keeps_logError _
    | with_reducible exact keeps_create _ _ _ _ | with_reducible exact keeps_method _ _ _ _
    | with_reducible exact keeps_query _ _ _ _ _ | with_reducible exact keeps_findProgram _
    | with_reducible exact keeps_MY_ASSERT _ | with_reducible exact keeps_gl _ _
    | with_reducible exact keeps_setSlot _ _ _ _ _ _ | with_reducible exact keeps_check _ _
    | with_reducible exact keeps_rtCall _ _ _ _ | with_reducible exact keeps_deref _
    | (with_reducible apply keeps_modifyApp; intro a; rfl)
    | with_reducible apply keeps_bind | with_reducible apply keeps_tryCatch
    | with_reducible apply keeps_forEach | with_reducible apply keeps_forUpTo
    | split | dsimp only | intro _)

/-- The constructor leaves `m_builder` at `Trbvh`, whatever happens in it. -/
theorem construct_builder (s : Sys) (width height : Int) (devices stackSize : Nat)
    (interop : Bool) :
    (construct width height devices stackSize interop s).2.app.m_builder = "Trbvh" := by
  have h := keeps_bind _ _ (keeps_camera (.setViewport width height)) (fun _ => keeps_init)
  unfold construct
  simp only [bind_run, modifyApp_run]
  exact h _

theorem numDigits_eleven : numDigits 11 = 2 := by
  rw [numDigits_eq_log]
  have : Nat.log 10 11 = 1 := by
    rw [Nat.log_eq_iff (by decide)]; decide
  rw [this]

/-- C11. Duplicate device indices are not prevented: with the encoding 11 and at least
two devices the list passed to `setDevices` is `[1, 1]`, which holds device 1 twice. -/
theorem C11_duplicate_devices (n : Nat) (h2 : 2 ≤ n) (hn : n < 2 ^ 32) :
    selectDevices 11 n = [1, 1] ∧ ¬ (selectDevices 11 n).Nodup ∧
    (selectDevices 11 n).count 1 = 2 := by
  have h : selectDevices 11 n = [1, 1] := by
    rw [selectDevices_eq 11 n (by decide) hn, numDigits_eleven]
    have hm : min (max n 1) 2 = 2 := by omega
    rw [hm]
    decide
  rw [h]
  decide

/-- Witness of C11: encoding 11 on two devices. -/
theorem C11_duplicate_devices_witness :
    (2 ≤ 2 ∧ 2 < 2 ^ 32) ∧ selectDevices 11 2 = [1, 1] ∧ ¬ (selectDevices 11 2).Nodup :=
  ⟨by decide, (C11_duplicate_devices 2 (by decide) (by decide)).1,
    (C11_duplicate_devices 2 (by decide) (by decide)).2.1⟩

theorem floor_nat_div_pow (m k : Nat) : ⌊(m : Rat) / 2 ^ k⌋ = ((m / 2 ^ k : Nat) : Int) := by
  have h := Rat.floor_intCast_div_natCast (m : Int) (2 ^ k)
  push_cast at h
  rw [h]
  norm_cast

theorem truncRat_nat (n : Nat) : truncRat (n : Rat) = n := by
  unfold truncRat
  rw [if_pos (by positivity)]
  exact Int.floor_natCast n

theorem truncRat_neg_nat (n : Nat) : truncRat (-(n : Rat)) = -(n : Int) := by
  unfold truncRat
  split
  · have h : (-(n : Rat)) = ((-(n : Int) : Int) : Rat) := by push_cast; rfl
    rw [h, Int.floor_intCast]
  · have h : (-(n : Rat)) = ((-(n : Int) : Int) : Rat) := by push_cast; rfl
    rw [h, Int.ceil_intCast]

theorem truncRat_div (m k : Nat) : truncRat ((m : Rat) / 2 ^ k) = ((m / 2 ^ k : Nat) : Int) := by
  unfold truncRat
  rw [if_pos (by positivity)]
  exact floor_nat_div_pow m k

theorem truncRat_neg_div (m k : Nat) :
    truncRat (-((m : Rat) / 2 ^ k)) = -((m / 2 ^ k : Nat) : Int) := by
  unfold truncRat
  split
  · next h =>
    have hq : (m : Rat) / 2 ^ k = 0 := le_antisymm (by linarith) (by positivity)
    have hf := floor_nat_div_pow m k
    rw [hq] at hf ⊢
    simp at hf ⊢
    omega
  · rw [Int.ceil_neg, floor_nat_div_pow]

/-- The conversion `F32.toInt` truncates toward zero: for a finite value whose truncation
fits an `int` it gives the integer part of the value. -/
theorem F32.toInt_truncates (f : F32) (hfits : f.fitsInt) :
    f.toInt = truncRat f.toRat := by
  obtain ⟨hfinite, hrange⟩ := hfits
  unfold F32.toInt F32.toRat at *
  simp only [hfinite, if_false] at *
  generalize f.bits / 2 ^ 31 % 2 = sign at *
  generalize hexpo : f.bits / 2 ^ 23 % 256 = expo at *
  have hfrac : f.bits % 2 ^ 23 < 2 ^ 23 := Nat.mod_lt _ (by positivity)
  generalize f.bits % 2 ^ 23 = frac at *
  by_cases h0 : expo = 0
  · simp only [h0, if_true] at hrange ⊢
    have hq : truncRat ((frac : Rat) / 2 ^ 149) = 0 := by
      rw [truncRat_div]
      have : frac / 2 ^ 149 = 0 := Nat.div_eq_of_lt (lt_of_lt_of_le hfrac (by norm_num))
      rw [this]; rfl
    have hq' : truncRat (-((frac : Rat) / 2 ^ 149)) = 0 := by
      rw [truncRat_neg_div]
      have : frac / 2 ^ 149 = 0 := Nat.div_eq_of_lt (lt_of_lt_of_le hfrac (by norm_num))
      rw [this]; rfl
    split <;> simp [hq, hq']
  · simp only [h0, if_false] at hrange ⊢
    by_cases h150 : 150 ≤ expo
    · simp only [h150, if_true] at hrange ⊢
      have hcast : ((2 ^ 23 + frac : Nat) : Rat) * 2 ^ (expo - 150)
          = (((2 ^ 23 + frac) * 2 ^ (expo - 150) : Nat) : Rat) := by push_cast; ring
      rw [hcast] at hrange ⊢
      generalize (2 ^ 23 + frac) * 2 ^ (expo - 150) = n at *
      by_cases hs : sign = 1
      · simp only [hs, if_true] at hrange ⊢
        rw [truncRat_neg_nat]
        have h1 : (n : Rat) < 2 ^ 31 + 1 := by linarith [hrange.1]
        have h2 : n < 2 ^ 31 + 1 := by exact_mod_cast h1
        rw [if_pos (by constructor <;> omega)]
      · simp only [hs, if_false] at hrange ⊢
        rw [truncRat_nat]
        have h2 : n < 2 ^ 31 := by exact_mod_cast hrange.2
        rw [if_pos (by constructor <;> omega)]
    · simp only [h150, if_false] at hrange ⊢
      have hk : 1 ≤ 150 - expo := by omega
      have hdiv : (2 ^ 23 + frac) / 2 ^ (150 - expo) < 2 ^ 24 := by
        apply lt_of_le_of_lt (Nat.div_le_self _ _)
        omega
      generalize hn : (2 ^ 23 + frac) / 2 ^ (150 - expo) = n at *
      by_cases hs : sign = 1
      · simp only [hs, if_true] at hrange ⊢
        rw [truncRat_neg_div, hn]
        rw [if_pos (by constructor <;> omega)]
      · simp only [hs, if_false] at hrange ⊢
        rw [truncRat_div, hn]
        rw [if_pos (by constructor <;> omega)]

/-- C12. In every `guiEventHandler` step at most one camera operation is invoked, one of
`setBaseCoordinates`, `orbit`, `dolly`, `pan` with exactly the mouse position converted to
`int` (its integer part, whenever the conversion is defined) or `zoom` with the wheel
delta; `zoom` is invoked exactly when the state is `GUI_STATE_NONE`, the GUI does not
capture the mouse, none of the left, right and middle buttons is down and the wheel delta
is nonzero. -/
theorem C12_handler_forwards (app : Application) (io : GuiInput) :
    (guiEventHandler app io).2.length ≤ 1 ∧
    (∀ c ∈ (guiEventHandler app io).2,
      c = .setBaseCoordinates (F32.toInt io.GetMousePos.x) (F32.toInt io.GetMousePos.y) ∨
      c = .orbit (F32.toInt io.GetMousePos.x) (F32.toInt io.GetMousePos.y) ∨
      c = .dolly (F32.toInt io.GetMousePos.x) (F32.toInt io.GetMousePos.y) ∨
      c = .pan (F32.toInt io.GetMousePos.x) (F32.toInt io.GetMousePos.y) ∨
      c = .zoom io.MouseWheel) ∧
    (io.GetMousePos.x.fitsInt →
      F32.toInt io.GetMousePos.x = truncRat io.GetMousePos.x.toRat) ∧
    (io.GetMousePos.y.fitsInt →
      F32.toInt io.GetMousePos.y = truncRat io.GetMousePos.y.toRat) ∧
    ((∃ delta, .zoom delta ∈ (guiEventHandler app io).2) ↔
      app.m_guiState = .GUI_STATE_NONE ∧ io.WantCaptureMouse = false ∧
      io.IsMouseDown 0 = false ∧ io.IsMouseDown 1 = false ∧ io.IsMouseDown 2 = false ∧
      io.MouseWheel.neZero = true) := by
  refine ⟨?_, ?_, F32.toInt_truncates _, F32.toInt_truncates _, ?_⟩ <;>
  cases hg : app.m_guiState
  all_goals first
    | (cases hk : io.IsKeyPressedSpace <;> cases hr : io.IsMouseReleased 0 <;>
        cases hr1 : io.IsMouseReleased 1 <;> cases hr2 : io.IsMouseReleased 2 <;>
        simp [guiEventHandler, hg, hk, hr, hr1, hr2]; done)
    | (cases hk : io.IsKeyPressedSpace <;> cases hw : io.WantCaptureMouse <;>
        cases h0 : io.IsMouseDown 0 <;> cases h1 : io.IsMouseDown 1 <;>
        cases h2 : io.IsMouseDown 2 <;> cases hz : io.MouseWheel.neZero <;>
        simp [guiEventHandler, hg, hk, hw, h0, h1, h2, hz])

/-- Witness of C12: pressing the left button at (100.75, -2.5) in the idle state calls
`setBaseCoordinates(100, -2)` and nothing else, although the wheel is turned. -/
theorem C12_handler_forwards_witness :
    fractionalLeftDown.GetMousePos.x.fitsInt ∧ fractionalLeftDown.GetMousePos.y.fitsInt ∧
    fractionalLeftDown.GetMousePos.x.toRat = 403 / 4 ∧
    fractionalLeftDown.GetMousePos.y.toRat = -5 / 2 ∧
    (guiEventHandler rawApp fractionalLeftDown).2 = [.setBaseCoordinates 100 (-2)] ∧
    truncRat fractionalLeftDown.GetMousePos.x.toRat = 100 ∧
    truncRat fractionalLeftDown.GetMousePos.y.toRat = -2 := by
  have h := C12_handler_forwards rawApp fractionalLeftDown
  have hx : fractionalLeftDown.GetMousePos.x.toRat = 403 / 4 := by
    norm_num [fractionalLeftDown, F32.toRat]
  have hy : fractionalLeftDown.GetMousePos.y.toRat = -5 / 2 := by
    norm_num [fractionalLeftDown, F32.toRat]
  have fx : fractionalLeftDown.GetMousePos.x.fitsInt := by
    refine ⟨by decide, ?_⟩
    rw [hx]; norm_num
  have fy : fractionalLeftDown.GetMousePos.y.fitsInt := by
    refine ⟨by decide, ?_⟩
    rw [hy]; norm_num
  refine ⟨fx, fy, hx, hy, by decide, ?_, ?_⟩
  · rw [← h.2.2.1 fx]; decide
  · rw [← h.2.2.2.1 fy]; decide

/-- What `setAccelerationProperties` does on an acceleration when no call fails: with the
builder `Trbvh` or `Sbvh` it issues the four `setProperty` calls, with every other builder
name it does nothing at all. -/
theorem setAccelerationProperties_run (s : Sys) (acc : Handle) (o : RtObject)
    (hfails : ∀ k, s.fails k = false)
    (hobj : s.runtime.objs acc = some o)
    (hsize : s.cfg.sizeofVertexAttributes = 48) :
    ((s.app.m_builder = "Trbvh" ∨ s.app.m_builder = "Sbvh") →
      (setAccelerationProperties (some acc) s).1 = .ok () ∧
      (setAccelerationProperties (some acc) s).2.runtime.objs acc =
        some { o with properties := strideProperties ++ o.properties } ∧
      emitted (setAccelerationProperties (some acc)) s =
        [.rt ⟨.setProperty, some acc, [.str "vertex_buffer_name", .str "attributesBuffer"]⟩,
         .rt ⟨.setProperty, some acc, [.str "vertex_buffer_stride", .str "48"]⟩,
         .rt ⟨.setProperty, some acc, [.str "index_buffer_name", .str "indicesBuffer"]⟩,
         .rt ⟨.setProperty, some acc, [.str "index_buffer_stride", .str "12"]⟩]) ∧
    (¬ (s.app.m_builder = "Trbvh" ∨ s.app.m_builder = "Sbvh") →
      setAccelerationProperties (some acc) s = (.ok (), s)) ∧
    ((∃ e ∈ emitted (setAccelerationProperties (some acc)) s,
        isCall .setProperty acc e = true) ↔
      (s.app.m_builder = "Trbvh" ∨ s.app.m_builder = "Sbvh")) := by
  by_cases hb : s.app.m_builder = "Trbvh" ∨ s.app.m_builder = "Sbvh"
  · simp [setAccelerationProperties, setProperty, hb, hfails, hobj, hsize, Runtime.update,
      strideProperties, emitted, isCall]
  · simp [setAccelerationProperties, hb, emitted]

set_option maxHeartbeats 40000000 in
/-- C13. `setAccelerationProperties` sets `vertex_buffer_name = attributesBuffer`,
`vertex_buffer_stride = 48`, `index_buffer_name = indicesBuffer` and
`index_buffer_stride = 12` on the acceleration exactly when the builder name is `Trbvh` or
`Sbvh`, and does nothing for any other name. The constructor leaves `m_builder` at `Trbvh`
whatever happens in it, and with that builder (and `sizeof(VertexAttributes) == 48`, as the
source asserts) `createScene` gives both geometry groups, `n+8` and `n+15`, an acceleration
that carries exactly these four properties; the vertex stride is the element size of the
attributes buffers `n+4` and `n+11` that `createGeometry` creates. -/
theorem C13_acceleration_properties (s : Sys) (context p1 p2 p3 : Handle)
    (hfails : ∀ k, s.fails k = false)
    (hctx : s.app.m_context = some context)
    (hlt : context < s.runtime.next)
    (hp1 : s.app.m_mapOfPrograms.lookup "closesthit" = some p1)
    (hp2 : s.app.m_mapOfPrograms.lookup "boundingbox_triangle_indexed" = some p2)
    (hp3 : s.app.m_mapOfPrograms.lookup "intersection_triangle_indexed" = some p3)
    (hsize : s.cfg.sizeofVertexAttributes = 48)
    (hbuilder : s.app.m_builder = "Trbvh") :
    (∀ (acc : Handle) (o : RtObject), s.runtime.objs acc = some o →
      (setAccelerationProperties (some acc) s).1 = .ok () ∧
      (setAccelerationProperties (some acc) s).2.runtime.objs acc =
        some { o with properties := strideProperties ++ o.properties }) ∧
    (∀ (t : Sys) (acc : Handle) (o : RtObject), (∀ k, t.fails k = false) →
      t.runtime.objs acc = some o → t.cfg.sizeofVertexAttributes = 48 →
      (((∃ e ∈ emitted (setAccelerationProperties (some acc)) t,
          isCall .setProperty acc e = true) ↔
        (t.app.m_builder = "Trbvh" ∨ t.app.m_builder = "Sbvh")) ∧
      ((t.app.m_builder = "Trbvh" ∨ t.app.m_builder = "Sbvh") →
        (setAccelerationProperties (some acc) t).2.runtime.objs acc =
          some { o with properties := strideProperties ++ o.properties }) ∧
      (¬ (t.app.m_builder = "Trbvh" ∨ t.app.m_builder = "Sbvh") →
        setAccelerationProperties (some acc) t = (.ok (), t)))) ∧
    (∀ (start : Sys) (width height : Int) (devices stackSize : Nat) (interop : Bool),
      (construct width height devices stackSize interop start).2.app.m_builder = "Trbvh") ∧
    (createScene s).1 = .ok () ∧
    ((createScene s).2.runtime.objs (s.runtime.next + 8)).map
        (fun o => (o.kind, o.acceleration))
      = some (.geometryGroup, some (s.runtime.next + 7)) ∧
    ((createScene s).2.runtime.objs (s.runtime.next + 15)).map
        (fun o => (o.kind, o.acceleration))
      = some (.geometryGroup, some (s.runtime.next + 13)) ∧
    (createScene s).2.runtime.objs (s.runtime.next + 7) =
      some { kind := .acceleration, builder := "Trbvh", properties := strideProperties } ∧
    (createScene s).2.runtime.objs (s.runtime.next + 13) =
      some { kind := .acceleration, builder := "Trbvh", properties := strideProperties } ∧
    ((createScene s).2.runtime.objs (s.runtime.next + 3)).map
        (fun o => o.vars.lookup "attributesBuffer")
      = some (some (some (s.runtime.next + 4))) ∧
    ((createScene s).2.runtime.objs (s.runtime.next + 10)).map
        (fun o => o.vars.lookup "attributesBuffer")
      = some (some (some (s.runtime.next + 11))) ∧
    (createScene s).2.runtime.objs (s.runtime.next + 4) =
      some { kind := .buffer, elementSize := 48, size := [s.cfg.plane.attributes] } ∧
    (createScene s).2.runtime.objs (s.runtime.next + 11) =
      some { kind := .buffer, elementSize := 48, size := [s.cfg.sphere.attributes] } ∧
    ((createScene s).2.runtime.objs (s.runtime.next + 7)).bind
        (fun o => o.properties.lookup "vertex_buffer_stride")
      = ((createScene s).2.runtime.objs (s.runtime.next + 4)).map
        (fun b => toString b.elementSize) ∧
    ((createScene s).2.runtime.objs (s.runtime.next + 13)).bind
        (fun o => o.properties.lookup "vertex_buffer_stride")
      = ((createScene s).2.runtime.objs (s.runtime.next + 11)).map
        (fun b => toString b.elementSize) := by
  have hne : ∀ k : Nat, ¬ (s.runtime.next + k = context) := by
    intro k h
    rw [← h] at hlt
    exact absurd hlt (Nat.not_lt.mpr (Nat.le_add_right _ _))
  have hne0 : ¬ (s.runtime.next = context) := by
    intro h
    rw [← h] at hlt
    exact absurd hlt (Nat.lt_irrefl _)
  have h48 : toString (48 : Nat) = "48" := by decide
  refine ⟨?_, ?_, construct_builder, ?_⟩
  · intro acc o hobj
    have h := (setAccelerationProperties_run s acc o hfails hobj hsize).1 (Or.inl hbuilder)
    exact ⟨h.1, h.2.1⟩
  · intro t acc o ht hobj htsize
    have h := setAccelerationProperties_run t acc o ht hobj htsize
    exact ⟨h.2.2, fun hb => (h.1 hb).2.1, h.2.1⟩
  · simp [createScene, initMaterials, createGeometry, createPlane, createSphere,
      createInstance, createGeometryGroup, addTransformed, createAcceleration,
      setAccelerationProperties, setAcceleration, setChildCount, setChild, getChildCount,
      setProperty, setProgram, setObjectVariable, hfails, hctx, hp1, hp2, hp3, hsize,
      Runtime.alloc, Runtime.update, rtCall, resize, hne, hne0, hbuilder, Nat.add_assoc,
      strideProperties, List.lookup, h48]

/-- Witness of C13: in the scene built from a context with the six programs loaded and
the builder `Trbvh`, the accelerations 14 and 20 of the two geometry groups carry the four
properties, and the attributes buffer 11 of the plane has element size 48. -/
theorem C13_acceleration_properties_witness :
    (∀ k, sceneSys.fails k = false) ∧ sceneSys.app.m_builder = "Trbvh" ∧
    sceneSys.cfg.sizeofVertexAttributes = 48 ∧
    (createScene sceneSys).2.runtime.objs 14 =
      some { kind := .acceleration, builder := "Trbvh", properties := strideProperties } ∧
    (createScene sceneSys).2.runtime.objs 20 =
      some { kind := .acceleration, builder := "Trbvh", properties := strideProperties } ∧
    (createScene sceneSys).2.runtime.objs 11 =
      some { kind := .buffer, elementSize := 48, size := [4] } := by
  have h := C13_acceleration_properties sceneSys 0 6 4 5 (fun _ => rfl) rfl (by decide)
    (by decide) (by decide) (by decide) rfl rfl
  exact ⟨fun _ => rfl, rfl, rfl, h.2.2.2.2.2.2.1, h.2.2.2.2.2.2.2.1, h.2.2.2.2.2.2.2.2.2.2.1⟩

end OptixIntro03
